import Mathlib

/-! # dbus-cpp: wire codec cursors, the Bus connection and the reactor adapter

A shallow embedding of `include/core/dbus/helper/signature.h`,
`src/core/dbus/message.cpp`, `src/core/dbus/bus.cpp` and
`src/core/dbus/asio/executor.cpp`.

The C++ code drives an external transport library (libdbus).  Its functions are
embedded under their C names, following their documented contract; outcomes the
C++ code cannot influence (allocation failure, the daemon's answer) are explicit
inputs of the embedded function or fields of the connection.  C++ exceptions are
values of `Exception` returned through `Except`.
-/

namespace core.dbus

/-! ## helper/signature.h -/

namespace helper

/-- `atomic_signature<T>()` returns `TypeMapper<T>::signature()`.  The header
`type_mapper.h` is not part of the sources; the mapping from a type `T` to its
signature is the parameter `TypeMapper`. -/
def atomic_signature {T : Type} (TypeMapper : T → String) (t : T) : String :=
  TypeMapper t

/-- The overloads `signature()` and `signature(const Arg&, const Args& ...)`:
the argument pack is the list of the argument types. -/
def signature {T : Type} (TypeMapper : T → String) : List T → String
  | [] => ""
  | Arg :: Args => atomic_signature TypeMapper Arg ++ signature TypeMapper Args

end helper

/-! ## Argument types and values of a message body -/

/-- The enumeration `ArgumentType` (its header is not part of the sources): one
member per type code of the protocol, `invalid` being the code an iterator
reports at the end of its arguments. -/
inductive ArgumentType where
  | invalid
  | byte
  | boolean
  | int16
  | uint16
  | int32
  | uint32
  | int64
  | uint64
  | floating_point
  | string
  | object_path
  | signature
  | unix_fd
  | array
  | variant
  | structure_
  | dictionary_entry
  deriving DecidableEq, Repr

/-- The integer value of an `ArgumentType` (`static_cast<int>`): the ASCII code of
the protocol's type character, `0` for `invalid`. -/
def ArgumentType.code : ArgumentType → Nat
  | .invalid => 0
  | .byte => 121
  | .boolean => 98
  | .int16 => 110
  | .uint16 => 113
  | .int32 => 105
  | .uint32 => 117
  | .int64 => 120
  | .uint64 => 116
  | .floating_point => 100
  | .string => 115
  | .object_path => 111
  | .signature => 103
  | .unix_fd => 104
  | .array => 97
  | .variant => 118
  | .structure_ => 114
  | .dictionary_entry => 101

/-- The one-character signature of a basic type: its type character. -/
def ArgumentType.type_signature (t : ArgumentType) : String :=
  String.singleton (Char.ofNat t.code)

/-! ## Exceptions -/

/-- The exceptions thrown by the embedded code.  `runtime_error` is
`std::runtime_error` with its `what()` text; `AlreadyOwned`, `AlreadyOwner` and
`NoMemory` are the members of `Bus::Errors`; `TypeMismatch` is the error of the
reader's argument-type check. -/
inductive Exception where
  | runtime_error (what : String)
  | AlreadyOwned
  | AlreadyOwner
  | NoMemory
  | TypeMismatch (expected actual : ArgumentType)
  deriving DecidableEq, Repr

/-- One byte of a C string. -/
abbrev CChar := Fin 256

/-- One argument stored in a message body.  A fixed-width value keeps its raw
bits, a string-like value (string, object path, signature) its characters, a
container the signature of its content and its children. -/
inductive Value where
  | fixed (type : ArgumentType) (bits : Nat)
  | string_like (type : ArgumentType) (chars : List CChar)
  | container (type : ArgumentType) (contained_signature : String) (children : List Value)

/-- The type code of a stored argument. -/
def Value.type : Value → ArgumentType
  | .fixed t _ => t
  | .string_like t _ => t
  | .container t _ _ => t

/-- The raw bits of a stored fixed-width argument. -/
def Value.bits : Value → Nat
  | .fixed _ b => b
  | _ => 0

/-- The characters of a stored string-like argument. -/
def Value.chars : Value → List CChar
  | .string_like _ cs => cs
  | _ => []

/-- The children of a stored container. -/
def Value.children : Value → List Value
  | .container _ _ cs => cs
  | _ => []

/-- The signature of one stored argument. -/
def Value.signature : Value → String
  | .fixed t _ => t.type_signature
  | .string_like t _ => t.type_signature
  | .container .array s _ => "a" ++ s
  | .container .structure_ s _ => "(" ++ s ++ ")"
  | .container .dictionary_entry s _ => "\x7b" ++ s ++ "\x7d"
  | .container t _ _ => t.type_signature

/-! ## Fixed-width integers -/

/-- The `w`-bit two's complement representation of an integer. -/
def to_bits (w : Nat) (v : Int) : Nat :=
  (v % (2 : Int) ^ w).toNat

/-- Reading `w` stored bits into a signed integer variable of that width. -/
def signed_of_bits (w : Nat) (bits : Nat) : Int :=
  if bits % 2 ^ w < 2 ^ (w - 1) then ((bits % 2 ^ w : Nat) : Int)
  else ((bits % 2 ^ w : Nat) : Int) - (2 : Int) ^ w

/-- Reading `w` stored bits into an unsigned integer variable of that width. -/
def unsigned_of_bits (w : Nat) (bits : Nat) : Nat :=
  bits % 2 ^ w

/-! ## The transport's message and its iterators (libdbus) -/

/-- The kinds of message, `Message::Type`. -/
inductive Message.Type_ where
  | invalid
  | method_call
  | method_return
  | error
  | signal
  deriving DecidableEq, Repr

/-- A `DBusMessage`: the header fields and the typed argument payload. -/
structure DBusMessage where
  type : Message.Type_
  serial : Nat
  reply_serial : Nat
  no_reply : Bool
  path : Option String
  interface : Option String
  member : Option String
  error_name : Option String
  destination : Option String
  sender : Option String
  body : List Value

/-- A `DBusMessageIter` in reading mode: the arguments from the current one to
the last of its level. -/
structure DBusMessageIter where
  args : List Value

/-- `dbus_message_iter_init`: positions the iterator on the first argument and
returns `FALSE` when the message has no arguments. -/
def dbus_message_iter_init (message : DBusMessage) : Bool × DBusMessageIter :=
  (!message.body.isEmpty, ⟨message.body⟩)

/-- `dbus_message_iter_get_arg_type`: the type of the current argument,
`DBUS_TYPE_INVALID` at the end. -/
def dbus_message_iter_get_arg_type (iter : DBusMessageIter) : ArgumentType :=
  match iter.args with
  | [] => .invalid
  | v :: _ => v.type

/-- `dbus_message_iter_next`: moves to the next argument of the level. -/
def dbus_message_iter_next (iter : DBusMessageIter) : DBusMessageIter :=
  ⟨iter.args.tail⟩

/-- `dbus_message_iter_get_basic` on a fixed-width argument: the raw bits copied
to the caller's variable. -/
def dbus_message_iter_get_basic (iter : DBusMessageIter) : Nat :=
  match iter.args with
  | [] => 0
  | v :: _ => v.bits

/-- `dbus_message_iter_get_basic` on a string-like argument: the C string the
returned `const char*` points to. -/
def dbus_message_iter_get_basic_string (iter : DBusMessageIter) : List CChar :=
  match iter.args with
  | [] => []
  | v :: _ => v.chars

/-- `dbus_message_iter_recurse`: an iterator over the content of the current
container.  The transport defines it for containers only; on any other argument
the sub-iterator of this model has no arguments. -/
def dbus_message_iter_recurse (iter : DBusMessageIter) : DBusMessageIter :=
  match iter.args with
  | [] => ⟨[]⟩
  | v :: _ => ⟨v.children⟩

/-- `dbus_message_get_signature`: the signatures of the arguments, in order. -/
def dbus_message_get_signature (message : DBusMessage) : String :=
  String.join (message.body.map Value.signature)

/-- A `DBusMessageIter` in append mode.  The iterator set up by
`dbus_message_iter_init_append` appends at the end of the message body
(`depth = 0`); the sub-iterator of an open container appends inside the
container that was opened last at its nesting depth. -/
structure DBusMessageAppendIter where
  depth : Nat
  appended : Nat

/-- `dbus_message_iter_init_append`. -/
def dbus_message_iter_init_append (_message : DBusMessage) : DBusMessageAppendIter :=
  ⟨0, 0⟩

/-- The arguments of a level after `value` is appended `depth` containers down
its last argument.  The signature of the content of a struct or dict entry
follows its children. -/
def append_at : Nat → List Value → Value → List Value
  | 0, args, value => args ++ [value]
  | depth + 1, args, value =>
    match args.getLast? with
    | some (.container t s children) =>
      let children := append_at depth children value
      let s := if t = .structure_ ∨ t = .dictionary_entry then
          String.join (children.map Value.signature) else s
      args.dropLast ++ [.container t s children]
    | _ => args ++ [value]

/-- `dbus_message_iter_append_basic`: appends one basic value to the message and
returns `TRUE`, or returns `FALSE` and appends nothing when the transport has
not enough memory (`enough_memory = false`; a build of the transport with
argument checks returns `FALSE` as well for a value that is not valid for its
type, such as a string that is not UTF-8). -/
def dbus_message_iter_append_basic (enough_memory : Bool) (message : DBusMessage)
    (iter : DBusMessageAppendIter) (value : Value) :
    Bool × DBusMessage × DBusMessageAppendIter :=
  if enough_memory then
    (true, { message with body := append_at iter.depth message.body value },
      { iter with appended := iter.appended + 1 })
  else
    (false, message, iter)

/-- `dbus_message_iter_open_container`: appends an empty container of the given
type to the message and sets up the sub-iterator that appends inside it.
`contained_signature` is the signature of the content for an array or a
variant and `NULL` (`none`) for a struct or a dict entry.  It returns `FALSE`
and appends nothing when the transport has not enough memory
(`enough_memory = false`; a build of the transport with argument checks returns
`FALSE` as well for a contained signature that is not a valid signature). -/
def dbus_message_iter_open_container (enough_memory : Bool) (message : DBusMessage)
    (iter : DBusMessageAppendIter) (type : ArgumentType) (contained_signature : Option String) :
    Bool × DBusMessage × DBusMessageAppendIter × DBusMessageAppendIter :=
  if enough_memory then
    let container := Value.container type (contained_signature.getD "") []
    (true, { message with body := append_at iter.depth message.body container },
      { iter with appended := iter.appended + 1 }, ⟨iter.depth + 1, 0⟩)
  else
    (false, message, iter, ⟨0, 0⟩)

/-- `dbus_message_iter_close_container`: ends the container of the
sub-iterator. -/
def dbus_message_iter_close_container (message : DBusMessage) (iter : DBusMessageAppendIter)
    (_sub : DBusMessageAppendIter) : DBusMessage × DBusMessageAppendIter :=
  (message, iter)

/-- The C string a `const char*` denotes: the bytes at the pointer up to, not
including, the first zero byte.  `buffer` is the content of the caller's string
object, which a terminating zero byte follows in memory. -/
def c_str (buffer : List CChar) : List CChar :=
  (buffer ++ [0]).takeWhile (fun c => c != 0)

/-! ## message.cpp: Message, Reader -/

/-- The class `Message`: the owner of one transport message
(`Message::Private::dbus_message`). -/
structure Message where
  dbus_message : DBusMessage

/-- The constructor `Message::Message(std::unique_ptr<Private>)`: a null
transport message is refused. -/
def Message.construct (dbus_message : Option DBusMessage) : Except Exception Message :=
  match dbus_message with
  | none => .error (.runtime_error
      "Precondition violated, cannot construct Message from null DBusMessage.")
  | some m => .ok ⟨m⟩

/-- `Message::from_raw_message`. -/
def Message.from_raw_message (msg : Option DBusMessage) : Except Exception Message :=
  Message.construct msg

/-- `Message::type`. -/
def Message.type (m : Message) : Message.Type_ :=
  m.dbus_message.type

/-- `Message::signature`. -/
def Message.signature (m : Message) : String :=
  dbus_message_get_signature m.dbus_message

/-- `types::ObjectPath`, a string wrapper. -/
structure types.ObjectPath where
  as_string : List CChar
  deriving DecidableEq

/-- `types::Signature`, a string wrapper. -/
structure types.Signature where
  as_string : List CChar
  deriving DecidableEq

/-- `types::UnixFd`, a wrapper of a descriptor number. -/
structure types.UnixFd where
  to_int : Int
  deriving DecidableEq

/-- `Message::Reader` (its `Private`: the message read and the iterator). -/
structure Message.Reader where
  msg : Message
  iter : DBusMessageIter

namespace Message.Reader

/-- The constructor `Reader::Reader(const std::shared_ptr<Message>&)`; the
iterator of a new reader is not positioned yet. -/
def construct (msg : Option Message) : Except Exception Message.Reader :=
  match msg with
  | none => .error (.runtime_error
      "Precondition violated, cannot construct Reader for null message.")
  | some m => .ok ⟨m, ⟨[]⟩⟩

/-- Modelled from the spec: `Reader::Private::ensure_argument_type_or_throw`
(`message_p.h` is not part of the sources).  On type mismatch (reader expected X
but found Y) the operation fails with a `TypeMismatch` error carrying both
codes. -/
def ensure_argument_type_or_throw (d : Message.Reader) (expected_type : ArgumentType) :
    Except Exception Unit :=
  let actual_type := dbus_message_iter_get_arg_type d.iter
  if actual_type ≠ expected_type then
    .error (.TypeMismatch expected_type actual_type)
  else
    .ok ()

/-- Modelled from the spec: `Reader::Private::pop_string_unchecked`
(`message_p.h` is not part of the sources), the atomic read of a string without
the type check: it returns the characters of the current argument and advances
the cursor. -/
def pop_string_unchecked (d : Message.Reader) : List CChar × Message.Reader :=
  (dbus_message_iter_get_basic_string d.iter, { d with iter := dbus_message_iter_next d.iter })

/-- `Reader::type`. -/
def type (r : Message.Reader) : ArgumentType :=
  dbus_message_iter_get_arg_type r.iter

/-- `Reader::pop`. -/
def pop (r : Message.Reader) : Message.Reader :=
  { r with iter := dbus_message_iter_next r.iter }

/-- A call of `Reader::type` as a step of a sequence of calls on one reader: the
type it reports and the reader the next call works on.  `type` is a const
member function, and the transport's `dbus_message_iter_get_arg_type` leaves
the iterator where it is. -/
def peek (r : Message.Reader) : ArgumentType × Message.Reader :=
  (r.type, r)

/-- `Reader::pop_byte`; the result is a `std::int8_t`. -/
def pop_byte (r : Message.Reader) : Except Exception (Int × Message.Reader) := do
  ensure_argument_type_or_throw r .byte
  let result := signed_of_bits 8 (dbus_message_iter_get_basic r.iter)
  pure (result, { r with iter := dbus_message_iter_next r.iter })

/-- `Reader::pop_boolean`; a `dbus_bool_t` is read and `!!result` returned. -/
def pop_boolean (r : Message.Reader) : Except Exception (Bool × Message.Reader) := do
  ensure_argument_type_or_throw r .boolean
  let result := unsigned_of_bits 32 (dbus_message_iter_get_basic r.iter)
  pure (result != 0, { r with iter := dbus_message_iter_next r.iter })

/-- `Reader::pop_int16`. -/
def pop_int16 (r : Message.Reader) : Except Exception (Int × Message.Reader) := do
  ensure_argument_type_or_throw r .int16
  let result := signed_of_bits 16 (dbus_message_iter_get_basic r.iter)
  pure (result, { r with iter := dbus_message_iter_next r.iter })

/-- `Reader::pop_uint16`. -/
def pop_uint16 (r : Message.Reader) : Except Exception (Nat × Message.Reader) := do
  ensure_argument_type_or_throw r .uint16
  let result := unsigned_of_bits 16 (dbus_message_iter_get_basic r.iter)
  pure (result, { r with iter := dbus_message_iter_next r.iter })

/-- `Reader::pop_int32`. -/
def pop_int32 (r : Message.Reader) : Except Exception (Int × Message.Reader) := do
  ensure_argument_type_or_throw r .int32
  let result := signed_of_bits 32 (dbus_message_iter_get_basic r.iter)
  pure (result, { r with iter := dbus_message_iter_next r.iter })

/-- `Reader::pop_uint32`. -/
def pop_uint32 (r : Message.Reader) : Except Exception (Nat × Message.Reader) := do
  ensure_argument_type_or_throw r .uint32
  let result := unsigned_of_bits 32 (dbus_message_iter_get_basic r.iter)
  pure (result, { r with iter := dbus_message_iter_next r.iter })

/-- `Reader::pop_int64`. -/
def pop_int64 (r : Message.Reader) : Except Exception (Int × Message.Reader) := do
  ensure_argument_type_or_throw r .int64
  let result := signed_of_bits 64 (dbus_message_iter_get_basic r.iter)
  pure (result, { r with iter := dbus_message_iter_next r.iter })

/-- `Reader::pop_uint64`. -/
def pop_uint64 (r : Message.Reader) : Except Exception (Nat × Message.Reader) := do
  ensure_argument_type_or_throw r .uint64
  let result := unsigned_of_bits 64 (dbus_message_iter_get_basic r.iter)
  pure (result, { r with iter := dbus_message_iter_next r.iter })

/-- `Reader::pop_floating_point`; the `double` is represented by its 64-bit
pattern. -/
def pop_floating_point (r : Message.Reader) : Except Exception (Nat × Message.Reader) := do
  ensure_argument_type_or_throw r .floating_point
  let result := unsigned_of_bits 64 (dbus_message_iter_get_basic r.iter)
  pure (result, { r with iter := dbus_message_iter_next r.iter })

/-- `Reader::pop_string`; the result is the C string the returned `const char*`
points to. -/
def pop_string (r : Message.Reader) : Except Exception (List CChar × Message.Reader) := do
  ensure_argument_type_or_throw r .string
  pure (pop_string_unchecked r)

/-- `Reader::pop_object_path`. -/
def pop_object_path (r : Message.Reader) :
    Except Exception (types.ObjectPath × Message.Reader) := do
  ensure_argument_type_or_throw r .object_path
  let (s, r1) := pop_string_unchecked r
  pure (⟨s⟩, r1)

/-- `Reader::pop_signature`. -/
def pop_signature (r : Message.Reader) :
    Except Exception (types.Signature × Message.Reader) := do
  ensure_argument_type_or_throw r .signature
  let (s, r1) := pop_string_unchecked r
  pure (⟨s⟩, r1)

/-- `Reader::pop_unix_fd`; an `int` is read. -/
def pop_unix_fd (r : Message.Reader) : Except Exception (types.UnixFd × Message.Reader) := do
  ensure_argument_type_or_throw r .unix_fd
  let result := signed_of_bits 32 (dbus_message_iter_get_basic r.iter)
  pure (⟨result⟩, { r with iter := dbus_message_iter_next r.iter })

/-- `Reader::pop_array`: the sub-reader and the advanced reader. -/
def pop_array (r : Message.Reader) : Except Exception (Message.Reader × Message.Reader) := do
  let result ← construct (some r.msg)
  let result := { result with iter := dbus_message_iter_recurse r.iter }
  pure (result, { r with iter := dbus_message_iter_next r.iter })

/-- `Reader::pop_structure`: the sub-reader and the advanced reader. -/
def pop_structure (r : Message.Reader) :
    Except Exception (Message.Reader × Message.Reader) := do
  let result ← construct (some r.msg)
  let result := { result with iter := dbus_message_iter_recurse r.iter }
  pure (result, { r with iter := dbus_message_iter_next r.iter })

/-- `Reader::pop_variant`: the sub-reader and the advanced reader. -/
def pop_variant (r : Message.Reader) : Except Exception (Message.Reader × Message.Reader) := do
  let result ← construct (some r.msg)
  let result := { result with iter := dbus_message_iter_recurse r.iter }
  pure (result, { r with iter := dbus_message_iter_next r.iter })

/-- `Reader::pop_dict_entry`: the sub-reader and the advanced reader. -/
def pop_dict_entry (r : Message.Reader) :
    Except Exception (Message.Reader × Message.Reader) := do
  let result ← construct (some r.msg)
  let result := { result with iter := dbus_message_iter_recurse r.iter }
  pure (result, { r with iter := dbus_message_iter_next r.iter })

end Message.Reader

/-- `Message::reader`. -/
def Message.reader (m : Message) : Except Exception Message.Reader := do
  let result ← Message.Reader.construct (some m)
  let (ok, iter) := dbus_message_iter_init m.dbus_message
  if !ok then
    throw (.runtime_error "Could not initialize reader, message does not have arguments")
  else
    pure { result with iter := iter }

/-! ## message.cpp: Writer -/

/-- `Message::Writer` (its `Private`: the message written and the iterator).
Writer and message share the message object; `msg` is its current state. -/
structure Message.Writer where
  msg : Message
  iter : DBusMessageAppendIter

namespace Message.Writer

/-- The constructor `Writer::Writer(const std::shared_ptr<Message>&)`. -/
def construct (msg : Option Message) : Except Exception Message.Writer :=
  match msg with
  | none => .error (.runtime_error
      "Precondition violated, cannot construct Writer for null message.")
  | some m => .ok ⟨m, ⟨0, 0⟩⟩

/-- The body shared by the `push_*` operations: append one basic value, throw
when the transport returns `FALSE`. -/
def append_or_throw (enough_memory : Bool) (w : Message.Writer) (value : Value) :
    Except Exception Message.Writer :=
  let (ok, message, iter) :=
    dbus_message_iter_append_basic enough_memory w.msg.dbus_message w.iter value
  if !ok then
    .error (.runtime_error "Not enough memory to append data to message.")
  else
    .ok ⟨⟨message⟩, iter⟩

/-- `Writer::push_byte(std::int8_t)`: one byte is copied from the variable. -/
def push_byte (enough_memory : Bool) (w : Message.Writer) (value : Int) :
    Except Exception Message.Writer :=
  append_or_throw enough_memory w (.fixed .byte (to_bits 8 value))

/-- `Writer::push_boolean(bool)`: `TRUE` or `FALSE` as a `dbus_bool_t`. -/
def push_boolean (enough_memory : Bool) (w : Message.Writer) (value : Bool) :
    Except Exception Message.Writer :=
  let bool_value : Nat := if value then 1 else 0
  append_or_throw enough_memory w (.fixed .boolean bool_value)

/-- `Writer::push_int16(std::int16_t)`. -/
def push_int16 (enough_memory : Bool) (w : Message.Writer) (value : Int) :
    Except Exception Message.Writer :=
  append_or_throw enough_memory w (.fixed .int16 (to_bits 16 value))

/-- `Writer::push_uint16(std::uint16_t)`. -/
def push_uint16 (enough_memory : Bool) (w : Message.Writer) (value : Nat) :
    Except Exception Message.Writer :=
  append_or_throw enough_memory w (.fixed .uint16 (value % 2 ^ 16))

/-- `Writer::push_int32(std::int32_t)`. -/
def push_int32 (enough_memory : Bool) (w : Message.Writer) (value : Int) :
    Except Exception Message.Writer :=
  append_or_throw enough_memory w (.fixed .int32 (to_bits 32 value))

/-- `Writer::push_uint32(std::uint32_t)`. -/
def push_uint32 (enough_memory : Bool) (w : Message.Writer) (value : Nat) :
    Except Exception Message.Writer :=
  append_or_throw enough_memory w (.fixed .uint32 (value % 2 ^ 32))

/-- `Writer::push_int64(std::int64_t)`. -/
def push_int64 (enough_memory : Bool) (w : Message.Writer) (value : Int) :
    Except Exception Message.Writer :=
  append_or_throw enough_memory w (.fixed .int64 (to_bits 64 value))

/-- `Writer::push_uint64(std::uint64_t)`. -/
def push_uint64 (enough_memory : Bool) (w : Message.Writer) (value : Nat) :
    Except Exception Message.Writer :=
  append_or_throw enough_memory w (.fixed .uint64 (value % 2 ^ 64))

/-- `Writer::push_floating_point(double)`, the `double` being its 64-bit
pattern. -/
def push_floating_point (enough_memory : Bool) (w : Message.Writer) (value : Nat) :
    Except Exception Message.Writer :=
  append_or_throw enough_memory w (.fixed .floating_point (value % 2 ^ 64))

/-- `Writer::push_stringn(const char* value, std::size_t)`.  `value` is the
content of the buffer the pointer refers to; the transport receives the pointer
only and reads a C string from it.  The second parameter is unnamed and unused
in the source. -/
def push_stringn (enough_memory : Bool) (w : Message.Writer) (value : List CChar)
    (_ : Nat) : Except Exception Message.Writer :=
  append_or_throw enough_memory w (.string_like .string (c_str value))

/-- `Writer::push_object_path`: `value.as_string().c_str()` is appended. -/
def push_object_path (enough_memory : Bool) (w : Message.Writer)
    (value : types.ObjectPath) : Except Exception Message.Writer :=
  let s := c_str value.as_string
  append_or_throw enough_memory w (.string_like .object_path s)

/-- `Writer::push_signature`: `value.as_string().c_str()` is appended. -/
def push_signature (enough_memory : Bool) (w : Message.Writer)
    (value : types.Signature) : Except Exception Message.Writer :=
  let s := c_str value.as_string
  append_or_throw enough_memory w (.string_like .signature s)

/-- `Writer::push_unix_fd`: the `int` of the descriptor is appended. -/
def push_unix_fd (enough_memory : Bool) (w : Message.Writer) (value : types.UnixFd) :
    Except Exception Message.Writer :=
  append_or_throw enough_memory w (.fixed .unix_fd (to_bits 32 value.to_int))

/-- The characters of a C string as a string, one character per byte. -/
def ascii_string (chars : List CChar) : String :=
  ⟨chars.map (fun c => Char.ofNat c.val)⟩

/-- `Writer::open_array`: the sub-writer and the writer after the call. -/
def open_array (enough_memory : Bool) (d : Message.Writer) (signature : types.Signature) :
    Except Exception (Message.Writer × Message.Writer) := do
  let w ← construct (some d.msg)
  let (ok, message, iter, sub) :=
    dbus_message_iter_open_container enough_memory d.msg.dbus_message d.iter .array
      (some (ascii_string (c_str signature.as_string)))
  if !ok then
    throw (.runtime_error "Problem opening container")
  else
    pure ({ w with msg := ⟨message⟩, iter := sub }, ⟨⟨message⟩, iter⟩)

/-- `Writer::close_array`: the writer after the sub-writer `w` is closed. -/
def close_array (d : Message.Writer) (w : Message.Writer) : Message.Writer :=
  let (message, iter) := dbus_message_iter_close_container w.msg.dbus_message d.iter w.iter
  ⟨⟨message⟩, iter⟩

/-- `Writer::open_structure`: the sub-writer and the writer after the call. -/
def open_structure (enough_memory : Bool) (d : Message.Writer) :
    Except Exception (Message.Writer × Message.Writer) := do
  let w ← construct (some d.msg)
  let (ok, message, iter, sub) :=
    dbus_message_iter_open_container enough_memory d.msg.dbus_message d.iter .structure_ none
  if !ok then
    throw (.runtime_error "Problem opening container")
  else
    pure ({ w with msg := ⟨message⟩, iter := sub }, ⟨⟨message⟩, iter⟩)

/-- `Writer::close_structure`: the writer after the sub-writer `w` is closed. -/
def close_structure (d : Message.Writer) (w : Message.Writer) : Message.Writer :=
  let (message, iter) := dbus_message_iter_close_container w.msg.dbus_message d.iter w.iter
  ⟨⟨message⟩, iter⟩

/-- `Writer::open_variant`: the sub-writer and the writer after the call.  The
source carries the note that the signature should be checked to refer to a
single complete type, and no such check. -/
def open_variant (enough_memory : Bool) (d : Message.Writer) (signature : types.Signature) :
    Except Exception (Message.Writer × Message.Writer) := do
  let w ← construct (some d.msg)
  let (ok, message, iter, sub) :=
    dbus_message_iter_open_container enough_memory d.msg.dbus_message d.iter .variant
      (some (ascii_string (c_str signature.as_string)))
  if !ok then
    throw (.runtime_error "Problem opening container")
  else
    pure ({ w with msg := ⟨message⟩, iter := sub }, ⟨⟨message⟩, iter⟩)

/-- `Writer::close_variant`: the writer after the sub-writer `w` is closed. -/
def close_variant (d : Message.Writer) (w : Message.Writer) : Message.Writer :=
  let (message, iter) := dbus_message_iter_close_container w.msg.dbus_message d.iter w.iter
  ⟨⟨message⟩, iter⟩

/-- `Writer::open_dict_entry`: the sub-writer and the writer after the call. -/
def open_dict_entry (enough_memory : Bool) (d : Message.Writer) :
    Except Exception (Message.Writer × Message.Writer) := do
  let w ← construct (some d.msg)
  let (ok, message, iter, sub) :=
    dbus_message_iter_open_container enough_memory d.msg.dbus_message d.iter
      .dictionary_entry none
  if !ok then
    throw (.runtime_error "Problem opening container")
  else
    pure ({ w with msg := ⟨message⟩, iter := sub }, ⟨⟨message⟩, iter⟩)

/-- `Writer::close_dict_entry`: the writer after the sub-writer `w` is closed. -/
def close_dict_entry (d : Message.Writer) (w : Message.Writer) : Message.Writer :=
  let (message, iter) := dbus_message_iter_close_container w.msg.dbus_message d.iter w.iter
  ⟨⟨message⟩, iter⟩

end Message.Writer

/-- `Message::writer`. -/
def Message.writer (m : Message) : Except Exception Message.Writer := do
  let w ← Message.Writer.construct (some m)
  pure { w with iter := dbus_message_iter_init_append m.dbus_message }

/-- Write one argument with `push` through the writer of `message`, then read
the first argument of the written message with `pop` through its reader: the
value read and the signature of the written message. -/
def write_then_read {β : Type} (message : Message)
    (push : Message.Writer → Except Exception Message.Writer)
    (pop : Message.Reader → Except Exception (β × Message.Reader)) :
    Except Exception (β × String) := do
  let w ← message.writer
  let w ← push w
  let r ← w.msg.reader
  let (v, _) ← pop r
  pure (v, w.msg.signature)

/-! ## message.cpp: factories and header accessors -/

/-- What `s.c_str()` hands to the transport for a `std::string` `s` used as a
header field: the characters of `s` before its first zero character. -/
def std_string_c_str (s : String) : String :=
  ⟨s.data.takeWhile (fun c => c != Char.ofNat 0)⟩

/-- `dbus_message_new_method_call`: a new method call with the given header
fields and no arguments, or `NULL` when the transport has not enough memory
(`enough_memory = false`; a build of the transport with argument checks returns
`NULL` as well for a field that is not valid). -/
def dbus_message_new_method_call (enough_memory : Bool)
    (destination path iface method : String) : Option DBusMessage :=
  if enough_memory then
    some { type := .method_call, serial := 0, reply_serial := 0, no_reply := false,
           path := some path, interface := some iface, member := some method,
           error_name := none, destination := some destination, sender := none, body := [] }
  else
    none

/-- `dbus_message_new_method_return`: a new method return that replies to
`method_call` (its reply serial is the serial of the call, its destination the
sender of the call), or `NULL` when the transport refuses (no memory; a build
of the transport with argument checks also refuses a call whose serial is
0). -/
def dbus_message_new_method_return (enough_memory : Bool) (method_call : DBusMessage) :
    Option DBusMessage :=
  if enough_memory then
    some { type := .method_return, serial := 0, reply_serial := method_call.serial,
           no_reply := true, path := none, interface := none, member := none,
           error_name := none, destination := method_call.sender, sender := none, body := [] }
  else
    none

/-- `dbus_message_new_signal`: a new signal with the given header fields, or
`NULL` when the transport refuses. -/
def dbus_message_new_signal (enough_memory : Bool) (path iface name : String) :
    Option DBusMessage :=
  if enough_memory then
    some { type := .signal, serial := 0, reply_serial := 0, no_reply := true,
           path := some path, interface := some iface, member := some name,
           error_name := none, destination := none, sender := none, body := [] }
  else
    none

/-- `dbus_message_new_error`: a new error message that replies to `reply_to`,
with the error name and, as its only argument, the error text; `NULL` when the
transport refuses (no memory; a build of the transport with argument checks
also refuses a message whose serial is 0). -/
def dbus_message_new_error (enough_memory : Bool) (reply_to : DBusMessage)
    (error_name : String) (error_message : List CChar) : Option DBusMessage :=
  if enough_memory then
    some { type := .error, serial := 0, reply_serial := reply_to.serial, no_reply := true,
           path := none, interface := none, member := none, error_name := some error_name,
           destination := reply_to.sender, sender := none,
           body := [.string_like .string error_message] }
  else
    none

/-- `Message::make_method_call`; `path` is `path.as_string()`. -/
def Message.make_method_call (enough_memory : Bool) (destination path interface method : String) :
    Except Exception Message :=
  Message.construct
    (dbus_message_new_method_call enough_memory (std_string_c_str destination)
      (std_string_c_str path) (std_string_c_str interface) (std_string_c_str method))

/-- `Message::make_method_return`. -/
def Message.make_method_return (enough_memory : Bool) (msg : Message) :
    Except Exception Message :=
  Message.construct (dbus_message_new_method_return enough_memory msg.dbus_message)

/-- `Message::make_signal`. -/
def Message.make_signal (enough_memory : Bool) (path interface signal : String) :
    Except Exception Message :=
  Message.construct
    (dbus_message_new_signal enough_memory (std_string_c_str path)
      (std_string_c_str interface) (std_string_c_str signal))

/-- `Message::make_error`; the description is an argument of the message body
and so a string of bytes. -/
def Message.make_error (enough_memory : Bool) (in_reply_to : Message) (error_name : String)
    (error_desc : List CChar) : Except Exception Message :=
  Message.construct
    (dbus_message_new_error enough_memory in_reply_to.dbus_message
      (std_string_c_str error_name) (c_str error_desc))

/-- `Message::path`: the string of the returned `types::ObjectPath`; `none`
where the transport returns a null pointer, from which no string can be
built. -/
def Message.path (m : Message) : Option String :=
  m.dbus_message.path

/-- `Message::member`; `none` where the transport returns a null pointer. -/
def Message.member (m : Message) : Option String :=
  m.dbus_message.member

/-- `Message::interface`; `none` where the transport returns a null pointer. -/
def Message.interface (m : Message) : Option String :=
  m.dbus_message.interface

/-- `Message::destination`; `none` where the transport returns a null pointer. -/
def Message.destination (m : Message) : Option String :=
  m.dbus_message.destination

/-- `Message::sender`; `none` where the transport returns a null pointer. -/
def Message.sender (m : Message) : Option String :=
  m.dbus_message.sender

/-! ## The transport's connection (libdbus and the bus daemon) -/

/-- The class `Error` (`error.h` is not part of the sources) as `bus.cpp` uses
it: whether the wrapped transport error is set (`operator bool`) and its text
(`print()`). -/
structure Error where
  is_set : Bool
  print : String

/-- `dbus_set_error_from_message`: the error an error message carries, its text
made of the error name and of the first argument of the message when that is
a string. -/
def dbus_set_error_from_message (message : DBusMessage) : Error :=
  let name := message.error_name.getD ""
  let text := match message.body with
    | .string_like .string chars :: _ => ⟨chars.map (fun c => Char.ofNat c.val)⟩
    | _ => ""
  ⟨true, name ++ ": " ++ text⟩

/-- `Message::error`. -/
def Message.error (m : Message) : Except Exception Error :=
  if m.type ≠ .error then
    .error (.runtime_error "Message does not contain error information")
  else
    .ok (dbus_set_error_from_message m.dbus_message)

/-- A `DBusPendingCall`, the transport's handle of one outstanding method call:
`reply` is `none` until the call is completed with a reply or an error
message. -/
structure DBusPendingCall where
  id : Nat
  reply : Option DBusMessage

/-- A call made on a connection. -/
inductive Call where
  | dbus_bus_request_name (name : String) (flags : Nat)
  | dbus_connection_send (message : DBusMessage)
  | dbus_bus_add_match (rule : String)
  | dbus_bus_remove_match (rule : String)
  | dbus_bus_release_name (name : String)
  | dbus_connection_add_filter
  | dbus_connection_remove_filter
  | dbus_connection_send_with_reply (message : DBusMessage) (timeout_milliseconds : Int)
  | dbus_connection_send_with_reply_and_block (message : DBusMessage)
      (timeout_milliseconds : Int)
  | dbus_connection_set_exit_on_disconnect (exit_on_disconnect : Bool)
  | dbus_connection_close
  | dbus_connection_unref

/-- Whether a call is a blocking method call
(`dbus_connection_send_with_reply_and_block`). -/
def Call.is_send_with_reply_and_block : Call → Bool
  | .dbus_connection_send_with_reply_and_block _ _ => true
  | _ => false

/-- Whether a call is `dbus_bus_add_match` with the rule `rule`. -/
def Call.is_add_match (rule : String) : Call → Bool
  | .dbus_bus_add_match r => r == rule
  | _ => false

/-- Whether a call is `dbus_bus_release_name` with the name `name`. -/
def Call.is_release_name (name : String) : Call → Bool
  | .dbus_bus_release_name n => n == name
  | _ => false

/-- Whether a call is `dbus_bus_remove_match` with the rule `rule`. -/
def Call.is_remove_match (rule : String) : Call → Bool
  | .dbus_bus_remove_match r => r == rule
  | _ => false

/-- A `DBusConnection`.  `calls` are the calls made on it so far, oldest first,
and `match_rules` the match rules the daemon holds for it, one entry per
registration.  `filters` is the number of installed message filters,
`pending_calls` are the handles of the method calls sent with a reply expected,
and `closed`, `refcount` and `exit_on_disconnect` the state of the connection
object.  The other fields are what the far side answers to the next call,
given the calls made so far: the daemon's reply to a name request, the serial
the outbound queue assigns (`none` when it refuses the message), the error a
match request comes back with, the daemon's reply to a name release, whether
there is memory for one more filter, what a send with a reply expected returns
(the Boolean and the handle) and what a blocking method call returns (the reply
or `NULL` with the error set). -/
structure DBusConnection where
  calls : List Call
  match_rules : List String
  request_name_reply : List Call → String → Nat → Int × Error
  send_reply : List Call → DBusMessage → Option Nat
  add_match_reply : List Call → String → Error
  remove_match_reply : List Call → String → Error
  filters : Nat
  pending_calls : List DBusPendingCall
  closed : Bool
  refcount : Nat
  exit_on_disconnect : Bool
  release_name_reply : List Call → String → Int × Error
  add_filter_reply : List Call → Bool
  send_with_reply_reply : List Call → DBusMessage → Int → Bool × Option DBusPendingCall
  send_with_reply_and_block_reply : List Call → DBusMessage → Int → Option DBusMessage × Error

/-- The number of registrations of `rule` the daemon holds for the connection. -/
def DBusConnection.registrations (connection : DBusConnection) (rule : String) : Nat :=
  connection.match_rules.count rule

/-- The number of registration requests for `rule` sent to the daemon. -/
def DBusConnection.add_match_requests (connection : DBusConnection) (rule : String) : Nat :=
  connection.calls.countP (Call.is_add_match rule)

/-- The number of removal requests for `rule` sent to the daemon. -/
def DBusConnection.remove_match_requests (connection : DBusConnection) (rule : String) :
    Nat :=
  connection.calls.countP (Call.is_remove_match rule)

/-- `DBUS_REQUEST_NAME_REPLY_PRIMARY_OWNER`. -/
def DBUS_REQUEST_NAME_REPLY_PRIMARY_OWNER : Int := 1

/-- `DBUS_REQUEST_NAME_REPLY_IN_QUEUE`. -/
def DBUS_REQUEST_NAME_REPLY_IN_QUEUE : Int := 2

/-- `DBUS_REQUEST_NAME_REPLY_EXISTS`. -/
def DBUS_REQUEST_NAME_REPLY_EXISTS : Int := 3

/-- `DBUS_REQUEST_NAME_REPLY_ALREADY_OWNER`. -/
def DBUS_REQUEST_NAME_REPLY_ALREADY_OWNER : Int := 4

/-- `dbus_bus_request_name`: the reply code (`-1` with the error set on
failure), the error, and the connection after the call. -/
def dbus_bus_request_name (connection : DBusConnection) (name : String) (flags : Nat) :
    Int × Error × DBusConnection :=
  let reply := connection.request_name_reply connection.calls name flags
  (reply.1, reply.2,
    { connection with calls := connection.calls ++ [.dbus_bus_request_name name flags] })

/-- `dbus_connection_send`: `FALSE` (here `none`) when the outbound queue refuses
the message, else `TRUE` with the serial assigned to the message. -/
def dbus_connection_send (connection : DBusConnection) (message : DBusMessage) :
    Option Nat × DBusConnection :=
  (connection.send_reply connection.calls message,
    { connection with calls := connection.calls ++ [.dbus_connection_send message] })

/-- `dbus_bus_add_match` with an error argument: the request is sent to the
daemon and its answer awaited.  On success the daemon holds one more
registration of the rule. -/
def dbus_bus_add_match (connection : DBusConnection) (rule : String) :
    Error × DBusConnection :=
  let se := connection.add_match_reply connection.calls rule
  let calls := connection.calls ++ [.dbus_bus_add_match rule]
  if se.is_set then
    (se, { connection with calls := calls })
  else
    (se, { connection with calls := calls, match_rules := connection.match_rules ++ [rule] })

/-- `dbus_bus_remove_match` with an error argument: the request is sent to the
daemon and its answer awaited.  On success the daemon has dropped one
registration of the rule. -/
def dbus_bus_remove_match (connection : DBusConnection) (rule : String) :
    Error × DBusConnection :=
  let se := connection.remove_match_reply connection.calls rule
  let calls := connection.calls ++ [.dbus_bus_remove_match rule]
  if se.is_set then
    (se, { connection with calls := calls })
  else
    (se, { connection with calls := calls, match_rules := connection.match_rules.erase rule })

/-- `dbus_bus_release_name`: the reply code (`-1` with the error set on
failure), the error, and the connection after the call. -/
def dbus_bus_release_name (connection : DBusConnection) (name : String) :
    Int × Error × DBusConnection :=
  let reply := connection.release_name_reply connection.calls name
  (reply.1, reply.2,
    { connection with calls := connection.calls ++ [.dbus_bus_release_name name] })

/-- `dbus_connection_add_filter`: installs one more message filter, or returns
`FALSE` when there is no memory for it. -/
def dbus_connection_add_filter (connection : DBusConnection) : Bool × DBusConnection :=
  let ok := connection.add_filter_reply connection.calls
  (ok, { connection with
          calls := connection.calls ++ [.dbus_connection_add_filter],
          filters := if ok then connection.filters + 1 else connection.filters })

/-- `dbus_connection_remove_filter`: removes one installed message filter. -/
def dbus_connection_remove_filter (connection : DBusConnection) : DBusConnection :=
  { connection with
      calls := connection.calls ++ [.dbus_connection_remove_filter],
      filters := connection.filters - 1 }

/-- `dbus_connection_send_with_reply`: `FALSE` when the transport has no memory;
else `TRUE` with the handle of the pending call, or with no handle when the
connection is disconnected or cannot carry the message. -/
def dbus_connection_send_with_reply (connection : DBusConnection) (message : DBusMessage)
    (timeout_milliseconds : Int) : Bool × Option DBusPendingCall × DBusConnection :=
  let reply := connection.send_with_reply_reply connection.calls message timeout_milliseconds
  let calls :=
    connection.calls ++ [.dbus_connection_send_with_reply message timeout_milliseconds]
  match reply with
  | (true, some pending_call) =>
    (true, some pending_call,
      { connection with calls := calls,
                        pending_calls := connection.pending_calls ++ [pending_call] })
  | (result, pending_call) => (result, pending_call, { connection with calls := calls })

/-- `dbus_connection_send_with_reply_and_block`: the reply, or `NULL` with the
error set when no reply arrives in time or the reply is an error. -/
def dbus_connection_send_with_reply_and_block (connection : DBusConnection)
    (message : DBusMessage) (timeout_milliseconds : Int) :
    Option DBusMessage × Error × DBusConnection :=
  let reply :=
    connection.send_with_reply_and_block_reply connection.calls message timeout_milliseconds
  (reply.1, reply.2,
    { connection with calls := connection.calls
        ++ [.dbus_connection_send_with_reply_and_block message timeout_milliseconds] })

/-- `dbus_connection_set_exit_on_disconnect`. -/
def dbus_connection_set_exit_on_disconnect (connection : DBusConnection)
    (exit_on_disconnect : Bool) : DBusConnection :=
  { connection with
      calls := connection.calls ++ [.dbus_connection_set_exit_on_disconnect exit_on_disconnect],
      exit_on_disconnect := exit_on_disconnect }

/-- `dbus_connection_close`: disconnects the connection.  The call completes no
pending call: for each outstanding one the transport queues an error reply,
which is delivered when the connection is dispatched. -/
def dbus_connection_close (connection : DBusConnection) : DBusConnection :=
  { connection with calls := connection.calls ++ [.dbus_connection_close], closed := true }

/-- `dbus_connection_unref`: drops one reference to the connection. -/
def dbus_connection_unref (connection : DBusConnection) : DBusConnection :=
  { connection with
      calls := connection.calls ++ [.dbus_connection_unref],
      refcount := connection.refcount - 1 }

/-- The well-known buses, `WellKnownBus`; its members have the values of
`DBusBusType`. -/
inductive WellKnownBus where
  | session
  | system
  | starter
  deriving DecidableEq, Repr

/-- What the transport answers when a connection is asked for: the new private
connection, or `NULL` with the error set, for an address
(`dbus_connection_open_private`) and for a well-known bus
(`dbus_bus_get_private`, which also registers the connection with the
daemon). -/
structure Transport where
  open_private : String → Option DBusConnection × Error
  bus_get_private : WellKnownBus → Option DBusConnection × Error

/-- `dbus_connection_open_private`. -/
def dbus_connection_open_private (transport : Transport) (address : String) :
    Option DBusConnection × Error :=
  transport.open_private address

/-- `dbus_bus_get_private`. -/
def dbus_bus_get_private (transport : Transport) (type : WellKnownBus) :
    Option DBusConnection × Error :=
  transport.bus_get_private type

/-- `DBusHandlerResult`. -/
inductive DBusHandlerResult where
  | DBUS_HANDLER_RESULT_HANDLED
  | DBUS_HANDLER_RESULT_NOT_YET_HANDLED
  | DBUS_HANDLER_RESULT_NEED_MEMORY
  deriving DecidableEq, Repr

/-! ## Process-wide state -/

/-- A function registered with `std::atexit`. -/
inductive ExitHandler where
  | dbus_shutdown
  deriving DecidableEq, Repr

/-- The state of the process that `bus.cpp` touches: the environment, the
function-local static `install_dbus_shutdown_handler` (`none` until it is
initialised), the `std::once_flag` (`true` once `call_once` has run), the
number of calls of `dbus_threads_init_default` made, and the registered exit
handlers, oldest first. -/
structure Process where
  env : String → Option String
  install_dbus_shutdown_handler : Option Bool
  once : Bool
  dbus_threads_init_default_calls : Nat
  atexit : List ExitHandler

/-- `core::posix::this_process::env::get(key)`: the value of the variable, the
empty string when it is not set. -/
def Process.env_get (process : Process) (key : String) : String :=
  (process.env key).getD ""

/-- `init_libdbus_thread_support_and_install_shutdown_handler`. -/
def init_libdbus_thread_support_and_install_shutdown_handler (process : Process) : Process :=
  let process :=
    match process.install_dbus_shutdown_handler with
    | some _ => process
    | none =>
      let value := !(process.env_get "DBUS_CPP_INSTALL_DBUS_SHUTDOWN_HANDLER").isEmpty
      { process with install_dbus_shutdown_handler := some value }
  if process.once then
    process
  else
    let process :=
      { process with
          once := true,
          dbus_threads_init_default_calls := process.dbus_threads_init_default_calls + 1 }
    if process.install_dbus_shutdown_handler = some true then
      { process with atexit := process.atexit ++ [.dbus_shutdown] }
    else
      process

/-! ## bus.cpp -/

/-- Modelled from the spec: the class template `MessageRouter`
(`message_router.h` is not part of the sources).  A map key → handler (§4.4): a
message is handed to the handler installed for its key and dropped silently
when there is none.  `routes` are the keys with a handler; `received` records
the messages the router was called with and `delivered` the handler
invocations, oldest first. -/
structure MessageRouter (Key : Type) where
  mapper : Message → Key
  routes : List Key
  received : List Message
  delivered : List (Key × Message)

/-- Modelled from the spec: `MessageRouter::operator()` (`message_router.h` is
not part of the sources).  The key of the handler that was invoked, if any, and
the router after the call. -/
def MessageRouter.call {Key : Type} [DecidableEq Key] (r : MessageRouter Key)
    (msg : Message) : Option Key × MessageRouter Key :=
  let key := r.mapper msg
  if key ∈ r.routes then
    (some key, { r with received := r.received ++ [msg],
                        delivered := r.delivered ++ [(key, msg)] })
  else
    (none, { r with received := r.received ++ [msg] })

/-- Modelled from the spec: `MessageRouter::install_route` (`message_router.h`
is not part of the sources): from now on the key has a handler. -/
def MessageRouter.install_route {Key : Type} [DecidableEq Key] (r : MessageRouter Key)
    (key : Key) : MessageRouter Key :=
  if key ∈ r.routes then r else { r with routes := r.routes ++ [key] }

/-- Modelled from the spec: `impl::PendingCall` (`pending_call_impl.h` is not
part of the sources), the client-side handle of an outstanding method call: it
wraps the handle of the transport. -/
structure PendingCall where
  pending_call : DBusPendingCall

/-- Modelled from the spec: `impl::PendingCall::create` (`pending_call_impl.h`
is not part of the sources). -/
def PendingCall.create (call : DBusPendingCall) : PendingCall :=
  ⟨call⟩

/-- Modelled from the spec: the server-side `Object` (`object.h` is not part of
the sources) as the object-path callback uses it.  It holds a map
(interface, member) → method handler (§4.5); `method_handlers` are the keys
with a handler and `invoked` the messages handed to a handler. -/
structure Object where
  method_handlers : List (Option String × Option String)
  invoked : List Message

/-- Modelled from the spec: `Object::on_new_message` (`object.h` is not part of
the sources).  On an inbound method call, look up by (interface, member): if a
handler is present it is invoked and handled is reported, if absent not yet
handled (§4.5). -/
def Object.on_new_message (o : Object) (msg : Message) : Bool × Object :=
  let key := (msg.dbus_message.interface, msg.dbus_message.member)
  if key ∈ o.method_handlers then
    (true, { o with invoked := o.invoked ++ [msg] })
  else
    (false, o)

/-- The struct `VTable` of `bus.cpp`: a weak reference to the registered object,
`none` once the object is destroyed. -/
structure VTable where
  object : Option Object

/-- `VTable::on_new_message(DBusConnection*, DBusMessage* message, void* data)`:
the result reported to the transport and the vtable (with its object) after the
call. -/
def VTable.on_new_message (message : DBusMessage) (data : VTable) :
    Except Exception DBusHandlerResult × VTable :=
  let thiz := data
  match thiz.object with
  | none => (.ok .DBUS_HANDLER_RESULT_NOT_YET_HANDLED, thiz)
  | some sp =>
    match Message.from_raw_message (some message) with
    | .error e => (.error e, thiz)
    | .ok msg =>
      let (handled, sp) := sp.on_new_message msg
      if handled then
        (.ok .DBUS_HANDLER_RESULT_HANDLED, { thiz with object := some sp })
      else
        (.ok .DBUS_HANDLER_RESULT_NOT_YET_HANDLED, { thiz with object := some sp })

/-- `Bus::Name`. -/
structure Bus.Name where
  name : String
  deriving DecidableEq, Repr

/-- `Bus::Name::as_string`. -/
def Bus.Name.as_string (n : Bus.Name) : String :=
  n.name

/-- `Bus::MessageHandlerResult`; its members have the values of the members of
`DBusHandlerResult`. -/
inductive Bus.MessageHandlerResult where
  | handled
  | not_yet_handled
  | need_memory
  deriving DecidableEq, Repr

/-- The conversion `static_cast<DBusHandlerResult>` of a
`Bus::MessageHandlerResult`. -/
def Bus.MessageHandlerResult.to_DBusHandlerResult :
    Bus.MessageHandlerResult → DBusHandlerResult
  | .handled => .DBUS_HANDLER_RESULT_HANDLED
  | .not_yet_handled => .DBUS_HANDLER_RESULT_NOT_YET_HANDLED
  | .need_memory => .DBUS_HANDLER_RESULT_NEED_MEMORY

/-- Modelled from the spec: the interface `Executor` (`executor.h` is not part
of the sources), the reactor a Bus can be bound to, with its operations
`run()` and `stop()`.  `id` tells executors apart, `run_outcome` and
`stop_outcome` are what the two operations of this executor do (return, or
throw what a task of the reactor throws), and `run_calls` and `stop_calls`
count their invocations. -/
structure Executor where
  id : Nat
  run_outcome : Except Exception Unit
  stop_outcome : Except Exception Unit
  run_calls : Nat
  stop_calls : Nat

/-- Modelled from the spec: `Executor::run` (`executor.h` is not part of the
sources). -/
def Executor.run (e : Executor) : Except Exception Unit × Executor :=
  (e.run_outcome, { e with run_calls := e.run_calls + 1 })

/-- Modelled from the spec: `Executor::stop` (`executor.h` is not part of the
sources). -/
def Executor.stop (e : Executor) : Except Exception Unit × Executor :=
  (e.stop_outcome, { e with stop_calls := e.stop_calls + 1 })

/-- The state of a `Bus` (`Bus::Private`): the connection, the router by message
kind, the signal router, keyed by the object path header of a message, and the
executor (`none` for the null pointer). -/
structure Bus where
  connection : DBusConnection
  message_type_router : MessageRouter Message.Type_
  signal_router : MessageRouter (Option String)
  executor : Option Executor

/-- The call `d->message_type_router(message)`.  The only route of this router is
the one the constructors install: kind `signal` to the signal router. -/
def Bus.route (bus : Bus) (message : Message) : Bus :=
  let (key, router) := bus.message_type_router.call message
  let bus := { bus with message_type_router := router }
  match key with
  | some .signal => { bus with signal_router := (bus.signal_router.call message).2 }
  | _ => bus

/-- `Bus::handle_message`. -/
def Bus.handle_message (bus : Bus) (message : Message) : Bus.MessageHandlerResult × Bus :=
  let bus := bus.route message
  (.not_yet_handled, bus)

/-- `static_handle_message(DBusConnection*, DBusMessage* message, void* user_data)`,
the filter installed on the connection; `user_data` is the Bus. -/
def static_handle_message (message : DBusMessage) (user_data : Bus) :
    Except Exception DBusHandlerResult × Bus :=
  let thiz := user_data
  match Message.from_raw_message (some message) with
  | .error e => (.error e, thiz)
  | .ok msg =>
    let (result, thiz) := thiz.handle_message msg
    (.ok result.to_DBusHandlerResult, thiz)

/-- `Bus::request_name_on_bus`; `flags` is the `unsigned int` of the
`RequestNameFlag`. -/
def Bus.request_name_on_bus (bus : Bus) (name : String) (flags : Nat) :
    Except Exception Bus.Name × Bus :=
  let (rc, error, connection) := dbus_bus_request_name bus.connection name flags
  let bus := { bus with connection := connection }
  let result : Bus.Name := ⟨name⟩
  if rc = DBUS_REQUEST_NAME_REPLY_PRIMARY_OWNER then (.ok result, bus)
  else if rc = DBUS_REQUEST_NAME_REPLY_IN_QUEUE then (.ok result, bus)
  else if rc = DBUS_REQUEST_NAME_REPLY_EXISTS then (.error .AlreadyOwned, bus)
  else if rc = DBUS_REQUEST_NAME_REPLY_ALREADY_OWNER then (.error .AlreadyOwner, bus)
  else if rc = -1 then (.error (.runtime_error error.print), bus)
  else (.ok result, bus)

/-- The error kind `SendFailure` as `Bus::send` raises it: a
`std::runtime_error` with the text of the source. -/
def SendFailure : Exception :=
  .runtime_error "Problem sending message"

/-- `Bus::send`. -/
def Bus.send (bus : Bus) (msg : Message) : Except Exception Nat × Bus :=
  let (sent, connection) := dbus_connection_send bus.connection msg.dbus_message
  let bus := { bus with connection := connection }
  match sent with
  | none => (.error SendFailure, bus)
  | some serial => (.ok serial, bus)

/-- `Bus::add_match`; `rule` is `rule.as_string()`. -/
def Bus.add_match (bus : Bus) (rule : String) : Except Exception Unit × Bus :=
  let (se, connection) := dbus_bus_add_match bus.connection rule
  let bus := { bus with connection := connection }
  if se.is_set then (.error (.runtime_error se.print), bus)
  else (.ok (), bus)

/-- `Bus::remove_match`; `rule` is `rule.as_string()`. -/
def Bus.remove_match (bus : Bus) (rule : String) : Except Exception Unit × Bus :=
  let (se, connection) := dbus_bus_remove_match bus.connection rule
  let bus := { bus with connection := connection }
  if se.is_set then (.error (.runtime_error se.print), bus)
  else (.ok (), bus)

/-- `Bus::release_name_on_bus`. -/
def Bus.release_name_on_bus (bus : Bus) (name : Bus.Name) : Except Exception Unit × Bus :=
  let (_, _, connection) := dbus_bus_release_name bus.connection name.as_string
  (.ok (), { bus with connection := connection })

/-- `Bus::send_with_reply_and_block_for_at_most`; `milliseconds` is
`milliseconds.count()`. -/
def Bus.send_with_reply_and_block_for_at_most (bus : Bus) (msg : Message)
    (milliseconds : Int) : Except Exception Message × Bus :=
  let (result, se, connection) :=
    dbus_connection_send_with_reply_and_block bus.connection msg.dbus_message milliseconds
  let bus := { bus with connection := connection }
  match result with
  | none => (.error (.runtime_error se.print), bus)
  | some result => (Message.from_raw_message (some result), bus)

/-- `Bus::send_with_reply_and_timeout`; `timeout` is `timeout.count()`. -/
def Bus.send_with_reply_and_timeout (bus : Bus) (msg : Message) (timeout : Int) :
    Except Exception PendingCall × Bus :=
  let (result, pending_call, connection) :=
    dbus_connection_send_with_reply bus.connection msg.dbus_message timeout
  let bus := { bus with connection := connection }
  if result = false then
    (.error .NoMemory, bus)
  else
    match pending_call with
    | none =>
      (.error (.runtime_error
        "Connection disconnected or tried to send fd\x27s over a transport that does not support it"),
        bus)
    | some pending_call => (.ok (PendingCall.create pending_call), bus)

/-- `DBus::name()` (`dbus.h` is not part of the sources): the well-known name
of the bus daemon. -/
def DBus.name : String := "org.freedesktop.DBus"

/-- `DBus::path()` (`dbus.h` is not part of the sources): the object path of
the bus daemon. -/
def DBus.path : String := "/org/freedesktop/DBus"

/-- `DBus::interface()` (`dbus.h` is not part of the sources): the interface of
the bus daemon. -/
def DBus.interface : String := "org.freedesktop.DBus"

/-- The constructor `Bus::Private::Private()`: the two routers, without routes,
and the process after the call of
`init_libdbus_thread_support_and_install_shutdown_handler`.  The connection
starts null. -/
def Bus.Private.construct (process : Process) :
    MessageRouter Message.Type_ × MessageRouter (Option String) × Process :=
  (⟨fun msg => msg.type, [], [], []⟩, ⟨fun msg => msg.path, [], [], []⟩,
    init_libdbus_thread_support_and_install_shutdown_handler process)

/-- The constructor `Bus::Bus(const std::string& address)`: the Bus or the
exception thrown, the connection as the constructor leaves it (`none` when none
was opened), and the process.  `enough_memory` is whether the transport has
memory for the Hello message. -/
def Bus.construct_from_address (transport : Transport) (process : Process)
    (enough_memory : Bool) (address : String) :
    Except Exception Bus × Option DBusConnection × Process :=
  let (message_type_router, signal_router, process) := Bus.Private.construct process
  let (connection, se) := dbus_connection_open_private transport address
  match connection with
  | none => (.error (.runtime_error se.print), none, process)
  | some connection =>
    let message_type_router := message_type_router.install_route .signal
    let (_, connection) := dbus_connection_add_filter connection
    match Message.make_method_call enough_memory DBus.name DBus.path DBus.interface "Hello" with
    | .error e => (.error e, some connection, process)
    | .ok message =>
      let thiz : Bus := ⟨connection, message_type_router, signal_router, none⟩
      match thiz.send_with_reply_and_block_for_at_most message 1000 with
      | (.error e, thiz) => (.error e, some thiz.connection, process)
      | (.ok reply, thiz) =>
        if reply.type = .error then
          match reply.error with
          | .error e => (.error e, some thiz.connection, process)
          | .ok error => (.error (.runtime_error error.print), some thiz.connection, process)
        else
          let connection := dbus_connection_set_exit_on_disconnect thiz.connection false
          (.ok { thiz with connection := connection }, some connection, process)

/-- The constructor `Bus::Bus(WellKnownBus bus)`: the Bus or the exception
thrown, the connection as the constructor leaves it (`none` when none was
opened), and the process. -/
def Bus.construct_from_well_known_bus (transport : Transport) (process : Process)
    (bus : WellKnownBus) : Except Exception Bus × Option DBusConnection × Process :=
  let (message_type_router, signal_router, process) := Bus.Private.construct process
  let (connection, se) := dbus_bus_get_private transport bus
  match connection with
  | none => (.error (.runtime_error se.print), none, process)
  | some connection =>
    let message_type_router := message_type_router.install_route .signal
    let (_, connection) := dbus_connection_add_filter connection
    let connection := dbus_connection_set_exit_on_disconnect connection false
    (.ok ⟨connection, message_type_router, signal_router, none⟩, some connection, process)

/-- The destructor `Bus::~Bus()`: the state the Bus leaves behind. -/
def Bus.destruct (bus : Bus) : Bus :=
  let connection := dbus_connection_remove_filter bus.connection
  let connection := dbus_connection_close connection
  let connection := dbus_connection_unref connection
  { bus with connection := connection }

/-- `Bus::install_executor`; `e` is `none` for a null pointer. -/
def Bus.install_executor (bus : Bus) (e : Option Executor) : Bus :=
  { bus with executor := e }

/-- `Bus::stop`. -/
def Bus.stop (bus : Bus) : Except Exception Unit × Bus :=
  match bus.executor with
  | none => (.error (.runtime_error "Missing executor, cannot stop."), bus)
  | some executor =>
    let (outcome, executor) := executor.stop
    (outcome, { bus with executor := some executor })

/-- `Bus::run`. -/
def Bus.run (bus : Bus) : Except Exception Unit × Bus :=
  match bus.executor with
  | none => (.error (.runtime_error "Missing executor, cannot run."), bus)
  | some executor =>
    let (outcome, executor) := executor.run
    (outcome, { bus with executor := some executor })

/-- A run of Bus constructions in one process, one for each environment of the
list: before each construction the environment of the process is the one
given, and each construction runs `Bus::Private::Private()`. -/
def construct_buses (process : Process) : List (String → Option String) → Process
  | [] => process
  | env :: rest => construct_buses (Bus.Private.construct { process with env := env }).2.2 rest

/-! ## asio/executor.cpp -/

namespace asio

/-- A `boost::system::error_code` as the adapters test it. -/
inductive error_code where
  | success
  | operation_aborted
  | other (value : Nat)
  deriving DecidableEq, Repr

/-- A `boost::asio::deadline_timer`: the expiry set last, in milliseconds from
the moment it was set, and the number of outstanding asynchronous waits. -/
structure deadline_timer where
  expires : Option Int
  waits : Nat
  deriving DecidableEq, Repr

/-- `deadline_timer::expires_from_now`: sets the expiry; outstanding waits are
cancelled (their handlers run with `operation_aborted`). -/
def deadline_timer.expires_from_now (timer : deadline_timer) (milliseconds : Int) :
    deadline_timer :=
  { timer with expires := some milliseconds, waits := 0 }

/-- `deadline_timer::async_wait`: one more outstanding wait. -/
def deadline_timer.async_wait (timer : deadline_timer) : deadline_timer :=
  { timer with waits := timer.waits + 1 }

/-- `deadline_timer::cancel`: outstanding waits are cancelled (their handlers
run with `operation_aborted`). -/
def deadline_timer.cancel (timer : deadline_timer) : deadline_timer :=
  { timer with waits := 0 }

/-- The adapter `Executor::Timeout<DBusTimeout>`: its timer.  Its pointer to the
transport's timeout is the `DBusTimeout` passed to its operations. -/
structure Executor.Timeout where
  timer : deadline_timer
  deriving DecidableEq, Repr

/-- A `DBusTimeout` of the transport: whether it is enabled, its interval in
milliseconds, the adapter stored with `dbus_timeout_set_data` (`none` when no
data is set), and the number of times its handler `dbus_timeout_handle` has
been invoked. -/
structure DBusTimeout where
  enabled : Bool
  interval : Int
  data : Option Executor.Timeout
  handled : Nat
  deriving DecidableEq, Repr

/-- `Executor::Timeout::start`. -/
def Executor.Timeout.start (thiz : Executor.Timeout) (timeout : DBusTimeout) :
    Executor.Timeout :=
  if !timeout.enabled then
    thiz
  else
    let timer := thiz.timer.expires_from_now timeout.interval
    let timer := timer.async_wait
    { thiz with timer := timer }

/-- `Executor::Timeout::cancel`. -/
def Executor.Timeout.cancel (thiz : Executor.Timeout) : Executor.Timeout :=
  { thiz with timer := thiz.timer.cancel }

/-- `Executor::Timeout::on_timeout`: the transport's timeout after the call. -/
def Executor.Timeout.on_timeout (ec : error_code) (timeout : DBusTimeout) : DBusTimeout :=
  if ec = .operation_aborted then
    timeout
  else if ec ≠ .success then
    timeout
  else
    { timeout with handled := timeout.handled + 1 }

/-- The handler `Timeout::start` passes to `async_wait`: it calls `on_timeout`
when the adapter is still alive. -/
def Executor.Timeout.wait_handler (ec : error_code) (timeout : DBusTimeout) : DBusTimeout :=
  match timeout.data with
  | some _ => Executor.Timeout.on_timeout ec timeout
  | none => timeout

/-- The handler of one wait run `n` times, once for each of `n` waits that
complete with `ec`. -/
def Executor.Timeout.wait_handlers (ec : error_code) : Nat → DBusTimeout → DBusTimeout
  | 0, timeout => timeout
  | n + 1, timeout =>
    Executor.Timeout.wait_handlers ec n (Executor.Timeout.wait_handler ec timeout)

/-- The reactor when the waits on the timer of the adapter complete with `ec`
(success when the timer expires, `operation_aborted` when the waits are
cancelled, another code when the timer fails): no wait is outstanding any more
and the handler of each one runs. -/
def timer_waits_complete (ec : error_code) (timeout : DBusTimeout) : DBusTimeout :=
  match timeout.data with
  | none => timeout
  | some t =>
    let waits := t.timer.waits
    let t : Executor.Timeout := { t with timer := { t.timer with waits := 0 } }
    Executor.Timeout.wait_handlers ec waits { timeout with data := some t }

/-- The reactor when the timer of the adapter expires: every outstanding wait
completes with success and its handler runs. -/
def timer_expires (timeout : DBusTimeout) : DBusTimeout :=
  timer_waits_complete .success timeout

/-- `Executor::on_dbus_add_timeout`. -/
def Executor.on_dbus_add_timeout (timeout : DBusTimeout) : Bool × DBusTimeout :=
  let t : Executor.Timeout := ⟨⟨none, 0⟩⟩
  (true, { timeout with data := some (t.start timeout) })

/-- `Executor::on_dbus_remove_timeout`. -/
def Executor.on_dbus_remove_timeout (timeout : DBusTimeout) : DBusTimeout :=
  match timeout.data with
  | some t => { timeout with data := some t.cancel }
  | none => timeout

/-- `Executor::on_dbus_timeout_toggled`.  The transport announces a timeout
before it toggles it, so the data is set. -/
def Executor.on_dbus_timeout_toggled (timeout : DBusTimeout) : DBusTimeout :=
  match timeout.data with
  | some holder => { timeout with data := some (holder.start timeout) }
  | none => timeout

/-- A `boost::asio::posix::stream_descriptor`: the descriptor assigned and the
numbers of outstanding asynchronous reads and writes. -/
structure stream_descriptor where
  native_handle : Option Int
  reads : Nat
  writes : Nat
  deriving DecidableEq, Repr

/-- The adapter `Executor::Watch<DBusWatch>`: its stream descriptor.  Its
pointer to the transport's watch is the `DBusWatch` passed to its
operations. -/
structure Executor.Watch where
  stream_descriptor : stream_descriptor
  deriving DecidableEq, Repr

/-- `DBUS_WATCH_READABLE`. -/
def DBUS_WATCH_READABLE : Nat := 1

/-- `DBUS_WATCH_WRITABLE`. -/
def DBUS_WATCH_WRITABLE : Nat := 2

/-- `DBUS_WATCH_ERROR`. -/
def DBUS_WATCH_ERROR : Nat := 4

/-- `DBUS_WATCH_HANGUP`. -/
def DBUS_WATCH_HANGUP : Nat := 8

/-- A `DBusWatch` of the transport: whether it is enabled, its file descriptor,
its flags, the adapter stored with `dbus_watch_set_data` (`none` when no data
is set), and the events its handler `dbus_watch_handle` has been invoked with,
oldest first. -/
structure DBusWatch where
  enabled : Bool
  unix_fd : Int
  flags : Nat
  data : Option Executor.Watch
  handled : List Nat
  deriving DecidableEq, Repr

/-- `traits::Watch<DBusWatch>::readable_event`. -/
def readable_event : Nat := DBUS_WATCH_READABLE

/-- `traits::Watch<DBusWatch>::writeable_event`. -/
def writeable_event : Nat := DBUS_WATCH_WRITABLE

/-- `traits::Watch<DBusWatch>::error_event`. -/
def error_event : Nat := DBUS_WATCH_ERROR

/-- `traits::Watch<DBusWatch>::hangup_event`. -/
def hangup_event : Nat := DBUS_WATCH_HANGUP

/-- `traits::Watch<DBusWatch>::invoke_watch_handler_for_event`, that is
`dbus_watch_handle`: the handler of the watch is invoked with the event; it
returns `FALSE` when the transport has not enough memory
(`enough_memory = false`). -/
def invoke_watch_handler_for_event (enough_memory : Bool) (watch : DBusWatch) (event : Nat) :
    Bool × DBusWatch :=
  (enough_memory, { watch with handled := watch.handled ++ [event] })

/-- `Executor::Watch::restart`: one asynchronous read is started when the watch
monitors its descriptor for readable, one asynchronous write when it monitors
it for writable. -/
def Executor.Watch.restart (thiz : Executor.Watch) (watch : DBusWatch) : Executor.Watch :=
  let thiz :=
    if watch.flags &&& DBUS_WATCH_READABLE ≠ 0 then
      { thiz with stream_descriptor :=
          { thiz.stream_descriptor with reads := thiz.stream_descriptor.reads + 1 } }
    else
      thiz
  if watch.flags &&& DBUS_WATCH_WRITABLE ≠ 0 then
    { thiz with stream_descriptor :=
        { thiz.stream_descriptor with writes := thiz.stream_descriptor.writes + 1 } }
  else
    thiz

/-- `Executor::Watch::start`. -/
def Executor.Watch.start (thiz : Executor.Watch) (watch : DBusWatch) : Executor.Watch :=
  let thiz : Executor.Watch :=
    { thiz with stream_descriptor :=
        { thiz.stream_descriptor with native_handle := some watch.unix_fd } }
  thiz.restart watch

/-- `Executor::Watch::cancel`: the outstanding reads and writes are cancelled
(their handlers run with `operation_aborted`). -/
def Executor.Watch.cancel (thiz : Executor.Watch) : Executor.Watch :=
  { thiz with stream_descriptor := { thiz.stream_descriptor with reads := 0, writes := 0 } }

/-- `Executor::Watch::on_stream_descriptor_event(event, error, bytes)`: the
exception thrown, if any, the adapter and the transport's watch after the
call.  `enough_memory` is what the handler of the watch returns when it is
invoked. -/
def Executor.Watch.on_stream_descriptor_event (enough_memory : Bool) (thiz : Executor.Watch)
    (watch : DBusWatch) (event : Nat) (error : error_code) :
    Except Exception Unit × Executor.Watch × DBusWatch :=
  if error = .operation_aborted then
    (.ok (), thiz, watch)
  else if error ≠ .success then
    let (_, watch) := invoke_watch_handler_for_event enough_memory watch error_event
    (.ok (), thiz, watch)
  else
    let (handled, watch) := invoke_watch_handler_for_event enough_memory watch event
    if !handled then
      (.error (.runtime_error "Insufficient memory while handling watch event"), thiz, watch)
    else
      (.ok (), thiz.restart watch, watch)

/-- Whether a readiness interest is registered for the watch: it has an adapter
with an outstanding read or write. -/
def DBusWatch.interest_registered (watch : DBusWatch) : Bool :=
  match watch.data with
  | some w => decide (0 < w.stream_descriptor.reads + w.stream_descriptor.writes)
  | none => false

/-- `Executor::on_dbus_add_watch`. -/
def Executor.on_dbus_add_watch (watch : DBusWatch) : Bool × DBusWatch :=
  if watch.enabled = false then
    (true, watch)
  else
    let w : Executor.Watch := ⟨⟨none, 0, 0⟩⟩
    (true, { watch with data := some (w.start watch) })

/-- `Executor::on_dbus_remove_watch`. -/
def Executor.on_dbus_remove_watch (watch : DBusWatch) : DBusWatch :=
  match watch.data with
  | none => watch
  | some w => { watch with data := some w.cancel }

/-- `Executor::on_dbus_watch_toggled`. -/
def Executor.on_dbus_watch_toggled (watch : DBusWatch) : DBusWatch :=
  match watch.data with
  | none => watch
  | some holder =>
    if watch.enabled = true then { watch with data := some (holder.restart watch) }
    else { watch with data := some holder.cancel }

/-- A task posted to the reactor.  `drain` is the task
`on_dbus_wakeup_event_loop` posts: it dispatches the connection while data
remains. -/
inductive io_task where
  | drain
  deriving DecidableEq, Repr

/-- A `boost::asio::io_service`: the tasks posted and not run yet, oldest
first. -/
structure io_service where
  posted : List io_task
  deriving DecidableEq, Repr

/-- `io_service::post`. -/
def io_service.post (io : io_service) (task : io_task) : io_service :=
  { io with posted := io.posted ++ [task] }

/-- The `asio::Executor`: its reactor.  The Bus it holds is captured by the
tasks it posts. -/
structure Executor where
  io_service : io_service
  deriving DecidableEq, Repr

/-- `Executor::on_dbus_wakeup_event_loop`. -/
def Executor.on_dbus_wakeup_event_loop (data : Executor) : Executor :=
  let thiz := data
  { thiz with io_service := thiz.io_service.post .drain }

/-- `k` wake requests in a row, the reactor running no task in between. -/
def Executor.wake_requests : Nat → Executor → Executor
  | 0, executor => executor
  | k + 1, executor => Executor.wake_requests k (Executor.on_dbus_wakeup_event_loop executor)

end asio

/-! ## Concrete inputs -/

/-- A method return that has no arguments yet. -/
def empty_method_return : Message :=
  ⟨{ type := .method_return, serial := 0, reply_serial := 2, no_reply := false,
     path := none, interface := none, member := none, error_name := none,
     destination := none, sender := none, body := [] }⟩

/-- A message whose only argument is the byte 7. -/
def message_with_byte : Message :=
  ⟨{ empty_method_return.dbus_message with body := [.fixed .byte 7] }⟩

/-- A reader on the first argument of `message_with_byte`. -/
def reader_on_byte : Message.Reader :=
  ⟨message_with_byte, ⟨[.fixed .byte 7]⟩⟩

/-- A reader on an array of two bytes. -/
def reader_on_array : Message.Reader :=
  ⟨⟨{ empty_method_return.dbus_message with
        body := [.container .array "y" [.fixed .byte 1, .fixed .byte 2]] }⟩,
   ⟨[.container .array "y" [.fixed .byte 1, .fixed .byte 2]]⟩⟩

/-- The reply of the daemon to a Hello call: a method return that carries the
unique name `:1.42`. -/
def hello_reply : DBusMessage :=
  { type := .method_return, serial := 1, reply_serial := 1, no_reply := true,
    path := none, interface := none, member := none, error_name := none,
    destination := some ":1.42", sender := some "org.freedesktop.DBus",
    body := [.string_like .string [58, 49, 46, 52, 50]] }

/-- A connection with a scripted far side.  A name request is answered by the
name asked for; the outbound queue refuses a message without arguments and
assigns serial 7 to any other; the daemon accepts every match request.  The
first release of a name is answered with released (1) and a later one with
non-existent (2).  A send with a reply expected is refused for a message
without arguments, gets no handle with timeout 0 and the handle 7 otherwise.  A
blocking Hello call is answered with `hello_reply`, any other blocking call
with no reply. -/
def scripted_connection : DBusConnection :=
  { calls := []
    match_rules := []
    request_name_reply := fun _ name _ =>
      if name = "org.test.Primary" then (1, ⟨false, ""⟩)
      else if name = "org.test.Queued" then (2, ⟨false, ""⟩)
      else if name = "org.test.Exists" then (3, ⟨false, ""⟩)
      else if name = "org.test.Mine" then (4, ⟨false, ""⟩)
      else (-1, ⟨true, "org.freedesktop.DBus.Error.Disconnected: Connection is closed"⟩)
    send_reply := fun _ message => if message.body.isEmpty then none else some 7
    add_match_reply := fun _ _ => ⟨false, ""⟩
    remove_match_reply := fun _ _ => ⟨false, ""⟩
    filters := 0
    pending_calls := []
    closed := false
    refcount := 1
    exit_on_disconnect := false
    release_name_reply := fun calls name =>
      if calls.any (Call.is_release_name name) then (2, ⟨false, ""⟩) else (1, ⟨false, ""⟩)
    add_filter_reply := fun _ => true
    send_with_reply_reply := fun _ message timeout =>
      if message.body.isEmpty then (false, none)
      else if timeout = 0 then (true, none)
      else (true, some ⟨7, none⟩)
    send_with_reply_and_block_reply := fun _ message _ =>
      if message.member = some "Hello" then (some hello_reply, ⟨false, ""⟩)
      else
        (none, ⟨true, "org.freedesktop.DBus.Error.NoReply: Did not receive a reply"⟩) }

/-- A Bus on `scripted_connection`, with the signal route installed. -/
def scripted_bus : Bus :=
  { connection := scripted_connection
    message_type_router :=
      { mapper := fun msg => msg.type, routes := [.signal], received := [], delivered := [] }
    signal_router :=
      { mapper := fun msg => msg.dbus_message.path, routes := [], received := [],
        delivered := [] }
    executor := none }

/-- A method call of `org.test.Iface.Ping` on `/`. -/
def ping_call : DBusMessage :=
  { type := .method_call, serial := 5, reply_serial := 0, no_reply := false,
    path := some "/", interface := some "org.test.Iface", member := some "Ping",
    error_name := none, destination := some "org.test.A", sender := some ":1.7", body := [] }

/-- An object with a handler for `org.test.Iface.Ping`. -/
def object_with_ping : Object :=
  { method_handlers := [(some "org.test.Iface", some "Ping")], invoked := [] }

/-- An object without handlers. -/
def object_without_handlers : Object :=
  { method_handlers := [], invoked := [] }

/-- The writer `Message::writer` returns for `empty_method_return`. -/
def writer_on_empty_method_return : Message.Writer :=
  ⟨empty_method_return, ⟨0, 0⟩⟩

/-- The signature `ii`: two complete types. -/
def signature_of_two_types : types.Signature :=
  ⟨[105, 105]⟩

/-- A transport that opens `scripted_connection` for the address
`unix:path=/run/test-bus` and for every well-known bus, and fails for any
other address. -/
def scripted_transport : Transport :=
  { open_private := fun address =>
      if address = "unix:path=/run/test-bus" then (some scripted_connection, ⟨false, ""⟩)
      else (none, ⟨true, "org.freedesktop.DBus.Error.NoServer: Failed to connect"⟩)
    bus_get_private := fun _ => (some scripted_connection, ⟨false, ""⟩) }

/-- A process in which no Bus has been constructed yet and whose environment
sets no variable. -/
def fresh_process : Process :=
  { env := fun _ => none, install_dbus_shutdown_handler := none, once := false,
    dbus_threads_init_default_calls := 0, atexit := [] }

/-- The environment that sets `DBUS_CPP_INSTALL_DBUS_SHUTDOWN_HANDLER` to `1`
and no other variable. -/
def env_with_shutdown_handler : String → Option String :=
  fun key => if key = "DBUS_CPP_INSTALL_DBUS_SHUTDOWN_HANDLER" then some "1" else none

/-- The environment that sets no variable. -/
def env_without_variables : String → Option String :=
  fun _ => none

/-- The Hello call the address constructor sends to the daemon. -/
def hello_call : DBusMessage :=
  { type := .method_call, serial := 0, reply_serial := 0, no_reply := false,
    path := some "/org/freedesktop/DBus", interface := some "org.freedesktop.DBus",
    member := some "Hello", error_name := none, destination := some "org.freedesktop.DBus",
    sender := none, body := [] }

/-- A Bus with one installed filter and one outstanding pending call. -/
def bus_with_pending_call : Bus :=
  { scripted_bus with
      connection := { scripted_connection with filters := 1, pending_calls := [⟨7, none⟩] } }

/-- An executor whose reactor has no task posted. -/
def idle_executor : asio.Executor :=
  ⟨⟨[]⟩⟩

/-- A timeout of 100 ms that is enabled and has not been announced yet. -/
def enabled_timeout : asio.DBusTimeout :=
  { enabled := true, interval := 100, data := none, handled := 0 }

/-- A watch on descriptor 5 for readable that is disabled and has not been
announced yet. -/
def disabled_watch : asio.DBusWatch :=
  { enabled := false, unix_fd := 5, flags := 1, data := none, handled := [] }

/-- A watch on descriptor 5 for readable that is enabled, with its adapter, whose
asynchronous read has just completed. -/
def watch_after_read : asio.DBusWatch :=
  { enabled := true, unix_fd := 5, flags := 1, data := some ⟨⟨some 5, 0, 0⟩⟩, handled := [] }

/-- The adapter of `watch_after_read`. -/
def adapter_after_read : asio.Executor.Watch :=
  ⟨⟨some 5, 0, 0⟩⟩

/-- A Bus on a connection whose daemon answers the name request for
`org.test.Zero` with the reply code 0 and any other name request with the reply
code 5. -/
def bus_with_undefined_replies : Bus :=
  { scripted_bus with
      connection := { scripted_connection with
        request_name_reply := fun _ name _ =>
          if name = "org.test.Zero" then (0, ⟨false, ""⟩) else (5, ⟨false, ""⟩) } }

/-- An executor whose `run()` and `stop()` return. -/
def first_executor : Executor :=
  { id := 1, run_outcome := .ok (), stop_outcome := .ok (), run_calls := 0, stop_calls := 0 }

/-- Another executor whose `run()` and `stop()` return. -/
def second_executor : Executor :=
  { id := 2, run_outcome := .ok (), stop_outcome := .ok (), run_calls := 0, stop_calls := 0 }

/-! ## Theorems -/

/-- Joining a list of strings puts the first one in front of the join of the
others. -/
theorem string_join_cons (a : String) (l : List String) :
    String.join (a :: l) = a ++ String.join l := by
  simp [String.join_eq, String.ext_iff]

/-- C1: for every list of argument types, `helper::signature` is the
concatenation, in argument order, of the atomic signatures of the types, and it
is the empty string for the empty argument list. -/
theorem signature_is_concatenation {T : Type} (TypeMapper : T → String) (Args : List T) :
    helper.signature TypeMapper Args
        = String.join (Args.map (helper.atomic_signature TypeMapper))
      ∧ helper.signature TypeMapper [] = "" := by
  refine ⟨?_, rfl⟩
  induction Args with
  | nil => rfl
  | cons a l ih => simp only [helper.signature, List.map_cons, string_join_cons, ih]

/-- An 8-bit signed value survives the copy through its bits. -/
theorem signed_of_to_bits_8 (v : Int) (h : -2 ^ 7 ≤ v ∧ v < 2 ^ 7) :
    signed_of_bits 8 (to_bits 8 v) = v := by
  unfold signed_of_bits to_bits
  norm_num at h ⊢
  omega

/-- A 16-bit signed value survives the copy through its bits. -/
theorem signed_of_to_bits_16 (v : Int) (h : -2 ^ 15 ≤ v ∧ v < 2 ^ 15) :
    signed_of_bits 16 (to_bits 16 v) = v := by
  unfold signed_of_bits to_bits
  norm_num at h ⊢
  omega

/-- A 32-bit signed value survives the copy through its bits. -/
theorem signed_of_to_bits_32 (v : Int) (h : -2 ^ 31 ≤ v ∧ v < 2 ^ 31) :
    signed_of_bits 32 (to_bits 32 v) = v := by
  unfold signed_of_bits to_bits
  norm_num at h ⊢
  omega

/-- A 64-bit signed value survives the copy through its bits. -/
theorem signed_of_to_bits_64 (v : Int) (h : -2 ^ 63 ≤ v ∧ v < 2 ^ 63) :
    signed_of_bits 64 (to_bits 64 v) = v := by
  unfold signed_of_bits to_bits
  norm_num at h ⊢
  omega

/-- Writing one value onto a message without arguments and reading the first
argument back: the reader sees exactly the value appended. -/
theorem write_then_read_eq {β : Type} (m : Message) (hm : m.dbus_message.body = [])
    (value : Value) (pop : Message.Reader → Except Exception (β × Message.Reader)) :
    write_then_read m (fun w => Message.Writer.append_or_throw true w value) pop
      = (pop ⟨⟨{ m.dbus_message with body := [value] }⟩, ⟨[value]⟩⟩).map
          (fun p => (p.1, value.signature)) := by
  simp only [write_then_read, Message.writer, Message.Writer.construct,
    Message.Writer.append_or_throw, dbus_message_iter_append_basic, append_at,
    dbus_message_iter_init_append, Message.reader,
    Message.Reader.construct, dbus_message_iter_init, Message.signature,
    dbus_message_get_signature, hm, bind, Except.bind, pure, Except.pure, Except.map]
  simp
  cases pop _ <;> simp [string_join_cons, String.join]

/-- C2: for every value of a fixed-width integer or boolean type, writing it
with `push_X` onto a message that has no arguments yet (the write succeeding)
and reading the first argument with `pop_X` returns the value, and the
signature of the message is the one-character signature of the type. -/
theorem push_pop_fixed_width_round_trip (m : Message) (hm : m.dbus_message.body = [])
    (y : Int) (hy : -2 ^ 7 ≤ y ∧ y < 2 ^ 7) (b : Bool)
    (n : Int) (hn : -2 ^ 15 ≤ n ∧ n < 2 ^ 15) (q : Nat) (hq : q < 2 ^ 16)
    (i : Int) (hi : -2 ^ 31 ≤ i ∧ i < 2 ^ 31) (u : Nat) (hu : u < 2 ^ 32)
    (x : Int) (hx : -2 ^ 63 ≤ x ∧ x < 2 ^ 63) (t : Nat) (ht : t < 2 ^ 64) :
    write_then_read m (fun w => w.push_byte true y) Message.Reader.pop_byte = .ok (y, "y")
    ∧ write_then_read m (fun w => w.push_boolean true b) Message.Reader.pop_boolean
        = .ok (b, "b")
    ∧ write_then_read m (fun w => w.push_int16 true n) Message.Reader.pop_int16
        = .ok (n, "n")
    ∧ write_then_read m (fun w => w.push_uint16 true q) Message.Reader.pop_uint16
        = .ok (q, "q")
    ∧ write_then_read m (fun w => w.push_int32 true i) Message.Reader.pop_int32
        = .ok (i, "i")
    ∧ write_then_read m (fun w => w.push_uint32 true u) Message.Reader.pop_uint32
        = .ok (u, "u")
    ∧ write_then_read m (fun w => w.push_int64 true x) Message.Reader.pop_int64
        = .ok (x, "x")
    ∧ write_then_read m (fun w => w.push_uint64 true t) Message.Reader.pop_uint64
        = .ok (t, "t") := by
  have s8 := signed_of_to_bits_8 y hy
  have s16 := signed_of_to_bits_16 n hn
  have s32 := signed_of_to_bits_32 i hi
  have s64 := signed_of_to_bits_64 x hx
  have e16 : q % 2 ^ 16 % 2 ^ 16 = q := by omega
  have e32 : u % 2 ^ 32 % 2 ^ 32 = u := by omega
  have e64 : t % 2 ^ 64 % 2 ^ 64 = t := by omega
  refine ⟨?_, ?_, ?_, ?_, ?_, ?_, ?_, ?_⟩
  · unfold Message.Writer.push_byte
    rw [write_then_read_eq m hm]
    simp [Message.Reader.pop_byte, Message.Reader.ensure_argument_type_or_throw,
      dbus_message_iter_get_arg_type, dbus_message_iter_get_basic, Value.type, Value.bits,
      Value.signature, bind, Except.bind, pure, Except.pure, Except.map, s8]
    decide
  · unfold Message.Writer.push_boolean
    simp only []
    rw [write_then_read_eq m hm]
    cases b <;>
    simp [Message.Reader.pop_boolean, Message.Reader.ensure_argument_type_or_throw,
      dbus_message_iter_get_arg_type, dbus_message_iter_get_basic, Value.type, Value.bits,
      Value.signature, unsigned_of_bits, bind, Except.bind, pure, Except.pure, Except.map] <;>
    decide
  · unfold Message.Writer.push_int16
    rw [write_then_read_eq m hm]
    simp [Message.Reader.pop_int16, Message.Reader.ensure_argument_type_or_throw,
      dbus_message_iter_get_arg_type, dbus_message_iter_get_basic, Value.type, Value.bits,
      Value.signature, bind, Except.bind, pure, Except.pure, Except.map, s16]
    decide
  · unfold Message.Writer.push_uint16
    rw [write_then_read_eq m hm]
    simp [Message.Reader.pop_uint16, Message.Reader.ensure_argument_type_or_throw,
      dbus_message_iter_get_arg_type, dbus_message_iter_get_basic, Value.type, Value.bits,
      Value.signature, unsigned_of_bits, bind, Except.bind, pure, Except.pure, Except.map, e16]
    exact ⟨by omega, by decide⟩
  · unfold Message.Writer.push_int32
    rw [write_then_read_eq m hm]
    simp [Message.Reader.pop_int32, Message.Reader.ensure_argument_type_or_throw,
      dbus_message_iter_get_arg_type, dbus_message_iter_get_basic, Value.type, Value.bits,
      Value.signature, bind, Except.bind, pure, Except.pure, Except.map, s32]
    decide
  · unfold Message.Writer.push_uint32
    rw [write_then_read_eq m hm]
    simp [Message.Reader.pop_uint32, Message.Reader.ensure_argument_type_or_throw,
      dbus_message_iter_get_arg_type, dbus_message_iter_get_basic, Value.type, Value.bits,
      Value.signature, unsigned_of_bits, bind, Except.bind, pure, Except.pure, Except.map, e32]
    exact ⟨by omega, by decide⟩
  · unfold Message.Writer.push_int64
    rw [write_then_read_eq m hm]
    simp [Message.Reader.pop_int64, Message.Reader.ensure_argument_type_or_throw,
      dbus_message_iter_get_arg_type, dbus_message_iter_get_basic, Value.type, Value.bits,
      Value.signature, bind, Except.bind, pure, Except.pure, Except.map, s64]
    decide
  · unfold Message.Writer.push_uint64
    rw [write_then_read_eq m hm]
    simp [Message.Reader.pop_uint64, Message.Reader.ensure_argument_type_or_throw,
      dbus_message_iter_get_arg_type, dbus_message_iter_get_basic, Value.type, Value.bits,
      Value.signature, unsigned_of_bits, bind, Except.bind, pure, Except.pure, Except.map, e64]
    exact ⟨by omega, by decide⟩

/-- C2 at concrete values: each of the eight round trips on
`empty_method_return`. -/
theorem push_pop_fixed_width_round_trip_witness :
    write_then_read empty_method_return (fun w => w.push_byte true (-3))
        Message.Reader.pop_byte = .ok (-3, "y")
    ∧ write_then_read empty_method_return (fun w => w.push_boolean true true)
        Message.Reader.pop_boolean = .ok (true, "b")
    ∧ write_then_read empty_method_return (fun w => w.push_int16 true (-300))
        Message.Reader.pop_int16 = .ok (-300, "n")
    ∧ write_then_read empty_method_return (fun w => w.push_uint16 true 65535)
        Message.Reader.pop_uint16 = .ok (65535, "q")
    ∧ write_then_read empty_method_return (fun w => w.push_int32 true (-70000))
        Message.Reader.pop_int32 = .ok (-70000, "i")
    ∧ write_then_read empty_method_return (fun w => w.push_uint32 true 4294967295)
        Message.Reader.pop_uint32 = .ok (4294967295, "u")
    ∧ write_then_read empty_method_return (fun w => w.push_int64 true (-5000000000))
        Message.Reader.pop_int64 = .ok (-5000000000, "x")
    ∧ write_then_read empty_method_return (fun w => w.push_uint64 true 18446744073709551615)
        Message.Reader.pop_uint64 = .ok (18446744073709551615, "t") :=
  push_pop_fixed_width_round_trip empty_method_return rfl (-3) (by norm_num) true
    (-300) (by norm_num) 65535 (by norm_num) (-70000) (by norm_num) 4294967295 (by norm_num)
    (-5000000000) (by norm_num) 18446744073709551615 (by norm_num)

/-- The C string read from a buffer is the buffer up to its first zero byte. -/
theorem c_str_eq_takeWhile (s : List CChar) : c_str s = s.takeWhile (fun c => c != 0) := by
  unfold c_str
  induction s with
  | nil => rfl
  | cons a l ih =>
    by_cases h : a = 0
    · simp [List.takeWhile, h]
    · simp [List.takeWhile, h, ih]

/-- A buffer without a zero byte is read whole. -/
theorem c_str_eq_self (s : List CChar) (hs : (0 : CChar) ∉ s) : c_str s = s := by
  rw [c_str_eq_takeWhile]
  induction s with
  | nil => rfl
  | cons a l ih =>
    have ha : a ≠ 0 := fun h => hs (by simp [h])
    have hl : (0 : CChar) ∉ l := fun h => hs (by simp [h])
    have hb : (a != 0) = true := by simpa using ha
    simp only [List.takeWhile, hb, ih hl]

/-- C3, refuted as stated: the three-byte string `a`, zero, `b` written with
`push_stringn(s, 3)` is read back by `pop_string` as the one-byte string `a`. -/
theorem push_stringn_truncates_at_zero_byte :
    write_then_read empty_method_return (fun w => w.push_stringn true [97, 0, 98] 3)
        Message.Reader.pop_string = .ok ([97], "s")
    ∧ ([97] : List CChar) ≠ [97, 0, 98] := by
  constructor
  · rfl
  · decide

/-- C3, amended: `push_stringn(s, n)` onto a message without arguments (the
write succeeding) followed by `pop_string` returns the part of `s` before its
first zero byte, whatever `n` is; for a string without a zero byte that is a
string equal to `s`. -/
theorem push_stringn_pop_string_round_trip (m : Message) (hm : m.dbus_message.body = [])
    (s : List CChar) (n : Nat) :
    write_then_read m (fun w => w.push_stringn true s n) Message.Reader.pop_string
        = .ok (s.takeWhile (fun c => c != 0), "s")
    ∧ ((0 : CChar) ∉ s →
        write_then_read m (fun w => w.push_stringn true s n) Message.Reader.pop_string
          = .ok (s, "s")) := by
  have key : write_then_read m (fun w => w.push_stringn true s n) Message.Reader.pop_string
      = .ok (c_str s, "s") := by
    unfold Message.Writer.push_stringn
    rw [write_then_read_eq m hm]
    simp [Message.Reader.pop_string, Message.Reader.ensure_argument_type_or_throw,
      Message.Reader.pop_string_unchecked, dbus_message_iter_get_basic_string,
      dbus_message_iter_get_arg_type, Value.type, Value.chars,
      Value.signature, bind, Except.bind, pure, Except.pure, Except.map]
    decide
  refine ⟨?_, fun hs => ?_⟩
  · rw [key, c_str_eq_takeWhile]
  · rw [key, c_str_eq_self s hs]

/-- C3 amended, at a concrete string: `ab` is read back whole. -/
theorem push_stringn_pop_string_round_trip_witness :
    write_then_read empty_method_return (fun w => w.push_stringn true [97, 98] 2)
        Message.Reader.pop_string = .ok ([97, 98], "s") :=
  (push_stringn_pop_string_round_trip empty_method_return rfl [97, 98] 2).2 (by decide)

/-- The argument-type check fails with both codes when the current argument has
another type than the expected one. -/
theorem ensure_argument_type_mismatch (r : Message.Reader) (X : ArgumentType)
    (h : r.type ≠ X) :
    Message.Reader.ensure_argument_type_or_throw r X = .error (.TypeMismatch X r.type) := by
  unfold Message.Reader.type at h
  simp [Message.Reader.ensure_argument_type_or_throw, Message.Reader.type, h]

/-- C4: every atomic read operation `pop_X`, applied to a reader whose current
argument is not of type X, fails with the `TypeMismatch` error that carries the
expected code X and the actual code, and so returns no value. -/
theorem pop_atomic_type_mismatch (r : Message.Reader) :
    (r.type ≠ .byte → r.pop_byte = .error (.TypeMismatch .byte r.type))
    ∧ (r.type ≠ .boolean → r.pop_boolean = .error (.TypeMismatch .boolean r.type))
    ∧ (r.type ≠ .int16 → r.pop_int16 = .error (.TypeMismatch .int16 r.type))
    ∧ (r.type ≠ .uint16 → r.pop_uint16 = .error (.TypeMismatch .uint16 r.type))
    ∧ (r.type ≠ .int32 → r.pop_int32 = .error (.TypeMismatch .int32 r.type))
    ∧ (r.type ≠ .uint32 → r.pop_uint32 = .error (.TypeMismatch .uint32 r.type))
    ∧ (r.type ≠ .int64 → r.pop_int64 = .error (.TypeMismatch .int64 r.type))
    ∧ (r.type ≠ .uint64 → r.pop_uint64 = .error (.TypeMismatch .uint64 r.type))
    ∧ (r.type ≠ .floating_point →
        r.pop_floating_point = .error (.TypeMismatch .floating_point r.type))
    ∧ (r.type ≠ .string → r.pop_string = .error (.TypeMismatch .string r.type))
    ∧ (r.type ≠ .object_path →
        r.pop_object_path = .error (.TypeMismatch .object_path r.type))
    ∧ (r.type ≠ .signature → r.pop_signature = .error (.TypeMismatch .signature r.type))
    ∧ (r.type ≠ .unix_fd → r.pop_unix_fd = .error (.TypeMismatch .unix_fd r.type)) := by
  refine ⟨?_, ?_, ?_, ?_, ?_, ?_, ?_, ?_, ?_, ?_, ?_, ?_, ?_⟩ <;> intro h
  · simp [Message.Reader.pop_byte, ensure_argument_type_mismatch r _ h, bind, Except.bind]
  · simp [Message.Reader.pop_boolean, ensure_argument_type_mismatch r _ h, bind, Except.bind]
  · simp [Message.Reader.pop_int16, ensure_argument_type_mismatch r _ h, bind, Except.bind]
  · simp [Message.Reader.pop_uint16, ensure_argument_type_mismatch r _ h, bind, Except.bind]
  · simp [Message.Reader.pop_int32, ensure_argument_type_mismatch r _ h, bind, Except.bind]
  · simp [Message.Reader.pop_uint32, ensure_argument_type_mismatch r _ h, bind, Except.bind]
  · simp [Message.Reader.pop_int64, ensure_argument_type_mismatch r _ h, bind, Except.bind]
  · simp [Message.Reader.pop_uint64, ensure_argument_type_mismatch r _ h, bind, Except.bind]
  · simp [Message.Reader.pop_floating_point, ensure_argument_type_mismatch r _ h, bind,
      Except.bind]
  · simp [Message.Reader.pop_string, ensure_argument_type_mismatch r _ h, bind, Except.bind]
  · simp [Message.Reader.pop_object_path, ensure_argument_type_mismatch r _ h, bind,
      Except.bind]
  · simp [Message.Reader.pop_signature, ensure_argument_type_mismatch r _ h, bind,
      Except.bind]
  · simp [Message.Reader.pop_unix_fd, ensure_argument_type_mismatch r _ h, bind, Except.bind]

/-- C4 at a concrete reader: on an array argument every atomic read fails with
its own expected code and the actual code `array`. -/
theorem pop_atomic_type_mismatch_witness :
    reader_on_array.pop_byte = .error (.TypeMismatch .byte .array)
    ∧ reader_on_array.pop_boolean = .error (.TypeMismatch .boolean .array)
    ∧ reader_on_array.pop_int16 = .error (.TypeMismatch .int16 .array)
    ∧ reader_on_array.pop_uint16 = .error (.TypeMismatch .uint16 .array)
    ∧ reader_on_array.pop_int32 = .error (.TypeMismatch .int32 .array)
    ∧ reader_on_array.pop_uint32 = .error (.TypeMismatch .uint32 .array)
    ∧ reader_on_array.pop_int64 = .error (.TypeMismatch .int64 .array)
    ∧ reader_on_array.pop_uint64 = .error (.TypeMismatch .uint64 .array)
    ∧ reader_on_array.pop_floating_point = .error (.TypeMismatch .floating_point .array)
    ∧ reader_on_array.pop_string = .error (.TypeMismatch .string .array)
    ∧ reader_on_array.pop_object_path = .error (.TypeMismatch .object_path .array)
    ∧ reader_on_array.pop_signature = .error (.TypeMismatch .signature .array)
    ∧ reader_on_array.pop_unix_fd = .error (.TypeMismatch .unix_fd .array) :=
  have h := pop_atomic_type_mismatch reader_on_array
  ⟨h.1 (by decide), h.2.1 (by decide), h.2.2.1 (by decide), h.2.2.2.1 (by decide),
   h.2.2.2.2.1 (by decide), h.2.2.2.2.2.1 (by decide), h.2.2.2.2.2.2.1 (by decide),
   h.2.2.2.2.2.2.2.1 (by decide), h.2.2.2.2.2.2.2.2.1 (by decide),
   h.2.2.2.2.2.2.2.2.2.1 (by decide), h.2.2.2.2.2.2.2.2.2.2.1 (by decide),
   h.2.2.2.2.2.2.2.2.2.2.2.1 (by decide), h.2.2.2.2.2.2.2.2.2.2.2.2 (by decide)⟩

/-- The four container reads never fail: whatever the current argument is, each
returns the sub-reader obtained by recursing into it, and the advanced
reader. -/
theorem pop_container_returns_sub_reader (r : Message.Reader) :
    r.pop_array = .ok (⟨r.msg, dbus_message_iter_recurse r.iter⟩, r.pop)
    ∧ r.pop_structure = .ok (⟨r.msg, dbus_message_iter_recurse r.iter⟩, r.pop)
    ∧ r.pop_variant = .ok (⟨r.msg, dbus_message_iter_recurse r.iter⟩, r.pop)
    ∧ r.pop_dict_entry = .ok (⟨r.msg, dbus_message_iter_recurse r.iter⟩, r.pop) :=
  ⟨rfl, rfl, rfl, rfl⟩

/-- C5, the code at the failing input: on a reader whose current argument is a
byte, none of the four container reads fails; each returns a sub-reader (one
without arguments) and advances the reader past the byte. -/
theorem pop_container_on_byte_returns_sub_reader :
    reader_on_byte.type = .byte
    ∧ reader_on_byte.pop_array
        = .ok (⟨message_with_byte, ⟨[]⟩⟩, ⟨message_with_byte, ⟨[]⟩⟩)
    ∧ reader_on_byte.pop_structure
        = .ok (⟨message_with_byte, ⟨[]⟩⟩, ⟨message_with_byte, ⟨[]⟩⟩)
    ∧ reader_on_byte.pop_variant
        = .ok (⟨message_with_byte, ⟨[]⟩⟩, ⟨message_with_byte, ⟨[]⟩⟩)
    ∧ reader_on_byte.pop_dict_entry
        = .ok (⟨message_with_byte, ⟨[]⟩⟩, ⟨message_with_byte, ⟨[]⟩⟩) :=
  ⟨rfl, rfl, rfl, rfl, rfl⟩

/-- C6: `Bus::request_name_on_bus(name, flags)` returns a Name whose
`as_string()` is `name` when the transport replies primary-owner or in-queue,
fails with `AlreadyOwned` on exists, with `AlreadyOwner` on already-owner, and
with a `std::runtime_error` carrying the text of the transport's error on
`-1`. -/
theorem request_name_on_bus_by_reply (bus : Bus) (name : String) (flags : Nat) :
    ((dbus_bus_request_name bus.connection name flags).1
          = DBUS_REQUEST_NAME_REPLY_PRIMARY_OWNER
        ∨ (dbus_bus_request_name bus.connection name flags).1
          = DBUS_REQUEST_NAME_REPLY_IN_QUEUE →
      ∃ result, (bus.request_name_on_bus name flags).1 = .ok result
        ∧ result.as_string = name)
    ∧ ((dbus_bus_request_name bus.connection name flags).1 = DBUS_REQUEST_NAME_REPLY_EXISTS →
      (bus.request_name_on_bus name flags).1 = .error .AlreadyOwned)
    ∧ ((dbus_bus_request_name bus.connection name flags).1
          = DBUS_REQUEST_NAME_REPLY_ALREADY_OWNER →
      (bus.request_name_on_bus name flags).1 = .error .AlreadyOwner)
    ∧ ((dbus_bus_request_name bus.connection name flags).1 = -1 →
      (bus.request_name_on_bus name flags).1
        = .error (.runtime_error (dbus_bus_request_name bus.connection name flags).2.1.print)) := by
  refine ⟨?_, ?_, ?_, ?_⟩
  · rintro (h | h)
    · exact ⟨⟨name⟩, by simp [Bus.request_name_on_bus, h], rfl⟩
    · exact ⟨⟨name⟩, by simp [Bus.request_name_on_bus, h], rfl⟩
  · intro h
    simp [Bus.request_name_on_bus, h, DBUS_REQUEST_NAME_REPLY_PRIMARY_OWNER,
      DBUS_REQUEST_NAME_REPLY_IN_QUEUE, DBUS_REQUEST_NAME_REPLY_EXISTS]
  · intro h
    simp [Bus.request_name_on_bus, h, DBUS_REQUEST_NAME_REPLY_PRIMARY_OWNER,
      DBUS_REQUEST_NAME_REPLY_IN_QUEUE, DBUS_REQUEST_NAME_REPLY_EXISTS,
      DBUS_REQUEST_NAME_REPLY_ALREADY_OWNER]
  · intro h
    simp [Bus.request_name_on_bus, h, DBUS_REQUEST_NAME_REPLY_PRIMARY_OWNER,
      DBUS_REQUEST_NAME_REPLY_IN_QUEUE, DBUS_REQUEST_NAME_REPLY_EXISTS,
      DBUS_REQUEST_NAME_REPLY_ALREADY_OWNER]

/-- C6 on `scripted_bus`: one name request for each of the five replies. -/
theorem request_name_on_bus_by_reply_witness :
    (∃ result, (scripted_bus.request_name_on_bus "org.test.Primary" 0).1 = .ok result
        ∧ result.as_string = "org.test.Primary")
    ∧ (∃ result, (scripted_bus.request_name_on_bus "org.test.Queued" 0).1 = .ok result
        ∧ result.as_string = "org.test.Queued")
    ∧ (scripted_bus.request_name_on_bus "org.test.Exists" 0).1 = .error .AlreadyOwned
    ∧ (scripted_bus.request_name_on_bus "org.test.Mine" 0).1 = .error .AlreadyOwner
    ∧ (scripted_bus.request_name_on_bus "org.test.Gone" 0).1
        = .error (.runtime_error
            "org.freedesktop.DBus.Error.Disconnected: Connection is closed") :=
  ⟨(request_name_on_bus_by_reply scripted_bus "org.test.Primary" 0).1 (Or.inl (by decide)),
   (request_name_on_bus_by_reply scripted_bus "org.test.Queued" 0).1 (Or.inr (by decide)),
   (request_name_on_bus_by_reply scripted_bus "org.test.Exists" 0).2.1 (by decide),
   (request_name_on_bus_by_reply scripted_bus "org.test.Mine" 0).2.2.1 (by decide),
   (request_name_on_bus_by_reply scripted_bus "org.test.Gone" 0).2.2.2 (by decide)⟩

/-- C7: `Bus::send(msg)` fails with `SendFailure` if and only if the transport's
outbound queue refuses the message, and otherwise returns exactly the serial
the transport assigned to the message. -/
theorem send_fails_iff_queue_refuses (bus : Bus) (msg : Message) :
    ((bus.send msg).1 = .error SendFailure
        ↔ (dbus_connection_send bus.connection msg.dbus_message).1 = none)
    ∧ (∀ e, (bus.send msg).1 = .error e → e = SendFailure)
    ∧ (∀ serial, (dbus_connection_send bus.connection msg.dbus_message).1 = some serial →
        (bus.send msg).1 = .ok serial) := by
  unfold Bus.send
  cases h : (dbus_connection_send bus.connection msg.dbus_message).1 with
  | none => simp [h]
  | some serial => simp [h]

/-- C7 on `scripted_bus`: a message without arguments is refused and the send
fails, a message with an argument gets serial 7 and the send returns 7. -/
theorem send_fails_iff_queue_refuses_witness :
    (scripted_bus.send empty_method_return).1 = .error SendFailure
    ∧ (scripted_bus.send message_with_byte).1 = .ok 7 :=
  ⟨(send_fails_iff_queue_refuses scripted_bus empty_method_return).1.2 (by decide),
   (send_fails_iff_queue_refuses scripted_bus message_with_byte).2.2 7 (by decide)⟩

/-- C8: for every inbound message, `Bus::handle_message` hands the message to the
message-type router exactly once (the router's record of received messages
grows by this message and nothing else) and returns `not_yet_handled`, whether
or not the router had a route for it; the installed filter
`static_handle_message` reports that result to the transport. -/
theorem handle_message_routes_once_and_reports_not_yet_handled (bus : Bus)
    (message : DBusMessage) :
    (bus.handle_message ⟨message⟩).1 = .not_yet_handled
    ∧ (bus.handle_message ⟨message⟩).2.message_type_router.received
        = bus.message_type_router.received ++ [⟨message⟩]
    ∧ (bus.handle_message ⟨message⟩).2.message_type_router
        = (bus.message_type_router.call ⟨message⟩).2
    ∧ static_handle_message message bus
        = (.ok .DBUS_HANDLER_RESULT_NOT_YET_HANDLED, (bus.handle_message ⟨message⟩).2) := by
  have hr : (bus.route ⟨message⟩).message_type_router
      = (bus.message_type_router.call ⟨message⟩).2 := by
    unfold Bus.route
    simp only []
    split <;> rfl
  have hc : (bus.message_type_router.call ⟨message⟩).2.received
      = bus.message_type_router.received ++ [⟨message⟩] := by
    unfold MessageRouter.call
    simp only []
    split <;> rfl
  refine ⟨rfl, ?_, ?_, rfl⟩
  · show (bus.route ⟨message⟩).message_type_router.received = _
    rw [hr, hc]
  · exact hr

/-- C9: the object-path callback `VTable::on_new_message` reports handled if and
only if the registered object is still alive and its `on_new_message` returns
true; when the object is destroyed it reports not-yet-handled and invokes
nothing (the vtable is unchanged), and when the object returns false it reports
not-yet-handled. -/
theorem vtable_on_new_message_result (message : DBusMessage) (data : VTable) :
    ((VTable.on_new_message message data).1 = .ok .DBUS_HANDLER_RESULT_HANDLED
        ↔ ∃ o, data.object = some o ∧ (o.on_new_message ⟨message⟩).1 = true)
    ∧ (data.object = none →
        VTable.on_new_message message data
          = (.ok .DBUS_HANDLER_RESULT_NOT_YET_HANDLED, data))
    ∧ (∀ o, data.object = some o → (o.on_new_message ⟨message⟩).1 = false →
        (VTable.on_new_message message data).1
          = .ok .DBUS_HANDLER_RESULT_NOT_YET_HANDLED) := by
  obtain ⟨object⟩ := data
  cases object with
  | none => simp [VTable.on_new_message]
  | some o =>
    cases h : (o.on_new_message ⟨message⟩).1 <;>
    simp [VTable.on_new_message, Message.from_raw_message, Message.construct, h]

/-- C9 at concrete vtables: a live object with a handler for the call, a
destroyed object, and a live object without a handler. -/
theorem vtable_on_new_message_result_witness :
    (VTable.on_new_message ping_call ⟨some object_with_ping⟩).1
        = .ok .DBUS_HANDLER_RESULT_HANDLED
    ∧ VTable.on_new_message ping_call ⟨none⟩
        = (.ok .DBUS_HANDLER_RESULT_NOT_YET_HANDLED, ⟨none⟩)
    ∧ (VTable.on_new_message ping_call ⟨some object_without_handlers⟩).1
        = .ok .DBUS_HANDLER_RESULT_NOT_YET_HANDLED :=
  ⟨(vtable_on_new_message_result ping_call ⟨some object_with_ping⟩).1.2
      ⟨object_with_ping, rfl, by decide⟩,
   (vtable_on_new_message_result ping_call ⟨none⟩).2.1 rfl,
   (vtable_on_new_message_result ping_call ⟨some object_without_handlers⟩).2.2
      object_without_handlers rfl (by decide)⟩

/-- `Bus::add_match` sends one registration request; when it returns normally
the daemon holds one more registration of the rule. -/
theorem add_match_effect (bus : Bus) (r : String) :
    (bus.add_match r).2.connection.calls = bus.connection.calls ++ [.dbus_bus_add_match r]
    ∧ ((bus.add_match r).1 = .ok () →
        (bus.add_match r).2.connection.match_rules = bus.connection.match_rules ++ [r]) := by
  unfold Bus.add_match dbus_bus_add_match
  cases h : (bus.connection.add_match_reply bus.connection.calls r).is_set <;> simp [h]

/-- `Bus::remove_match` sends one removal request; when it returns normally the
daemon has dropped one registration of the rule. -/
theorem remove_match_effect (bus : Bus) (r : String) :
    (bus.remove_match r).2.connection.calls
        = bus.connection.calls ++ [.dbus_bus_remove_match r]
    ∧ ((bus.remove_match r).1 = .ok () →
        (bus.remove_match r).2.connection.match_rules = bus.connection.match_rules.erase r) := by
  unfold Bus.remove_match dbus_bus_remove_match
  cases h : (bus.connection.remove_match_reply bus.connection.calls r).is_set <;> simp [h]

/-- C10, refuted as stated: on `scripted_bus`, which holds no registration,
`add_match(r)` twice sends two registration requests and leaves two daemon-side
registrations of `r`, and the `remove_match(r)` that follows sends a removal
request to the daemon. -/
theorem add_match_twice_registers_twice :
    scripted_bus.connection.registrations "type=signal" = 0
    ∧ ((scripted_bus.add_match "type=signal").2.add_match "type=signal").2.connection.registrations
        "type=signal" = 2
    ∧ ((scripted_bus.add_match "type=signal").2.add_match "type=signal").2.connection.add_match_requests
        "type=signal" = 2
    ∧ ((((scripted_bus.add_match "type=signal").2.add_match "type=signal").2.remove_match
        "type=signal").2.connection.remove_match_requests "type=signal") = 1 := by
  decide

/-- C10, amended: the Bus keeps no reference count.  Every `add_match(r)` sends
one registration request for `r` to the daemon and every `remove_match(r)` one
removal request.  When the calls succeed, `add_match(r)` twice creates two
daemon-side registrations of `r`; `add_match(r)` followed by `remove_match(r)`
leaves the daemon-side registration count of `r` unchanged; `add_match(r)`
twice followed by `remove_match(r)` once leaves `r` active, with one
registration more than before, after two registration requests and one removal
request. -/
theorem add_remove_match_registrations (bus : Bus) (r : String) :
    (bus.add_match r).2.connection.calls = bus.connection.calls ++ [.dbus_bus_add_match r]
    ∧ (bus.remove_match r).2.connection.calls
        = bus.connection.calls ++ [.dbus_bus_remove_match r]
    ∧ ((bus.add_match r).1 = .ok () → ((bus.add_match r).2.add_match r).1 = .ok () →
        ((bus.add_match r).2.add_match r).2.connection.registrations r
          = bus.connection.registrations r + 2)
    ∧ ((bus.add_match r).1 = .ok () → ((bus.add_match r).2.remove_match r).1 = .ok () →
        ((bus.add_match r).2.remove_match r).2.connection.registrations r
          = bus.connection.registrations r)
    ∧ ((bus.add_match r).1 = .ok () → ((bus.add_match r).2.add_match r).1 = .ok () →
        (((bus.add_match r).2.add_match r).2.remove_match r).1 = .ok () →
        (((bus.add_match r).2.add_match r).2.remove_match r).2.connection.registrations r
            = bus.connection.registrations r + 1
          ∧ (((bus.add_match r).2.add_match r).2.remove_match r).2.connection.calls
            = bus.connection.calls
              ++ [.dbus_bus_add_match r, .dbus_bus_add_match r, .dbus_bus_remove_match r]) := by
  refine ⟨(add_match_effect bus r).1, (remove_match_effect bus r).1, ?_, ?_, ?_⟩
  · intro h1 h2
    unfold DBusConnection.registrations
    rw [(add_match_effect _ r).2 h2, (add_match_effect bus r).2 h1]
    simp [List.count_append]
  · intro h1 h2
    unfold DBusConnection.registrations
    rw [(remove_match_effect _ r).2 h2, (add_match_effect bus r).2 h1]
    simp [List.count_erase_self, List.count_append]
  · intro h1 h2 h3
    constructor
    · unfold DBusConnection.registrations
      rw [(remove_match_effect _ r).2 h3, (add_match_effect _ r).2 h2,
        (add_match_effect bus r).2 h1]
      simp [List.count_erase_self, List.count_append]
    · rw [(remove_match_effect _ r).1, (add_match_effect _ r).1, (add_match_effect bus r).1]
      simp

/-- C10 amended, on `scripted_bus`, whose daemon accepts every request. -/
theorem add_remove_match_registrations_witness :
    ((scripted_bus.add_match "type=signal").2.add_match "type=signal").2.connection.registrations
        "type=signal" = scripted_bus.connection.registrations "type=signal" + 2
    ∧ ((scripted_bus.add_match "type=signal").2.remove_match
        "type=signal").2.connection.registrations "type=signal"
        = scripted_bus.connection.registrations "type=signal"
    ∧ (((scripted_bus.add_match "type=signal").2.add_match "type=signal").2.remove_match
        "type=signal").2.connection.registrations "type=signal"
        = scripted_bus.connection.registrations "type=signal" + 1 :=
  have h := add_remove_match_registrations scripted_bus "type=signal"
  ⟨h.2.2.1 rfl rfl, h.2.2.2.1 rfl rfl, (h.2.2.2.2 rfl rfl rfl).1⟩

/-- A string without a zero character is handed to the transport whole. -/
theorem std_string_c_str_eq_self (s : String) (h : Char.ofNat 0 ∉ s.data) :
    std_string_c_str s = s := by
  unfold std_string_c_str
  have key : ∀ l : List Char, Char.ofNat 0 ∉ l →
      l.takeWhile (fun c => c != Char.ofNat 0) = l := by
    intro l
    induction l with
    | nil => intro _; rfl
    | cons a t ih =>
      intro hl
      have ha : a ≠ Char.ofNat 0 := fun e => hl (by simp [e])
      have ht : Char.ofNat 0 ∉ t := fun e => hl (by simp [e])
      have hb : (a != Char.ofNat 0) = true := by simpa using ha
      simp only [List.takeWhile, hb, ih ht]
  rw [key s.data h]

/-- C11, refuted as stated: `make_method_call` with a destination that holds a
zero character yields a method call whose `destination()` is not the given
argument but its part before the zero character. -/
theorem make_method_call_truncates_destination :
    (Message.make_method_call true "org.test.A\x00B" "/obj" "org.test.Iface" "Ping").map
        Message.destination = .ok (some "org.test.A")
    ∧ "org.test.A" ≠ "org.test.A\x00B" := by
  constructor
  · rfl
  · decide

/-- C11, amended: every Message produced by a factory satisfies the header
invariant of its kind.  For arguments that hold no zero character,
`make_method_call` yields kind `method_call` whose `path()`, `interface()`,
`member()` and `destination()` return the given arguments, and `make_signal`
yields kind `signal` with that path, interface and member;
`make_method_return` and `make_error` yield kinds
`method_return` and `error` whose reply serial is the serial of the message
replied to; and when the transport returns a null frame every factory fails
instead of returning a Message. -/
theorem factories_header_invariant (destination path iface member : String)
    (msg : Message) (error_name : String) (error_desc : List CChar) (raw : DBusMessage)
    (hd : Char.ofNat 0 ∉ destination.data) (hp : Char.ofNat 0 ∉ path.data)
    (hi : Char.ofNat 0 ∉ iface.data) (hm : Char.ofNat 0 ∉ member.data) :
    (∃ m, Message.make_method_call true destination path iface member = .ok m
        ∧ m.type = .method_call ∧ m.path = some path ∧ m.interface = some iface
        ∧ m.member = some member ∧ m.destination = some destination)
    ∧ (∃ m, Message.make_signal true path iface member = .ok m
        ∧ m.type = .signal ∧ m.path = some path ∧ m.interface = some iface
        ∧ m.member = some member)
    ∧ (∃ m, Message.make_method_return true msg = .ok m
        ∧ m.type = .method_return ∧ m.dbus_message.reply_serial = msg.dbus_message.serial)
    ∧ (∃ m, Message.make_error true msg error_name error_desc = .ok m
        ∧ m.type = .error ∧ m.dbus_message.reply_serial = msg.dbus_message.serial
        ∧ m.dbus_message.error_name = some (std_string_c_str error_name))
    ∧ (∃ m, Message.from_raw_message (some raw) = .ok m ∧ m.dbus_message = raw)
    ∧ (∃ e, Message.make_method_call false destination path iface member = .error e)
    ∧ (∃ e, Message.make_signal false path iface member = .error e)
    ∧ (∃ e, Message.make_method_return false msg = .error e)
    ∧ (∃ e, Message.make_error false msg error_name error_desc = .error e)
    ∧ (∃ e, Message.from_raw_message none = .error e) := by
  refine ⟨⟨_, rfl, rfl, ?_, ?_, ?_, ?_⟩, ⟨_, rfl, rfl, ?_, ?_, ?_⟩, ⟨_, rfl, rfl, rfl⟩,
    ⟨_, rfl, rfl, rfl, rfl⟩, ⟨_, rfl, rfl⟩, ⟨_, rfl⟩, ⟨_, rfl⟩, ⟨_, rfl⟩, ⟨_, rfl⟩, ⟨_, rfl⟩⟩
  · show some (std_string_c_str path) = some path
    rw [std_string_c_str_eq_self path hp]
  · show some (std_string_c_str iface) = some iface
    rw [std_string_c_str_eq_self iface hi]
  · show some (std_string_c_str member) = some member
    rw [std_string_c_str_eq_self member hm]
  · show some (std_string_c_str destination) = some destination
    rw [std_string_c_str_eq_self destination hd]
  · show some (std_string_c_str path) = some path
    rw [std_string_c_str_eq_self path hp]
  · show some (std_string_c_str iface) = some iface
    rw [std_string_c_str_eq_self iface hi]
  · show some (std_string_c_str member) = some member
    rw [std_string_c_str_eq_self member hm]

/-- C11 amended, at concrete arguments: the call `org.test.Iface.Ping` on `/obj`
of `org.test.A`, a reply and an error in reply to `message_with_byte`. -/
theorem factories_header_invariant_witness :
    (∃ m, Message.make_method_call true "org.test.A" "/obj" "org.test.Iface" "Ping" = .ok m
        ∧ m.type = .method_call ∧ m.path = some "/obj" ∧ m.interface = some "org.test.Iface"
        ∧ m.member = some "Ping" ∧ m.destination = some "org.test.A")
    ∧ (∃ m, Message.make_signal true "/obj" "org.test.Iface" "Ping" = .ok m
        ∧ m.type = .signal ∧ m.path = some "/obj" ∧ m.interface = some "org.test.Iface"
        ∧ m.member = some "Ping") :=
  have h := factories_header_invariant "org.test.A" "/obj" "org.test.Iface" "Ping"
    message_with_byte "org.test.Error.Failed" [111, 104] message_with_byte.dbus_message
    (by decide) (by decide) (by decide) (by decide)
  ⟨h.1, h.2.1⟩

/-- `Writer::open_variant` performs no check of the signature: whenever the
transport opens the container, a sub-writer is returned, whatever the
signature. -/
theorem open_variant_returns_sub_writer (d : Message.Writer) (signature : types.Signature) :
    ∃ sub parent, d.open_variant true signature = .ok (sub, parent)
      ∧ sub.iter.depth = d.iter.depth + 1 :=
  ⟨_, _, rfl, rfl⟩

/-- C12, the code at the failing input: for the signature `ii`, which is two
complete types, `open_variant` on the writer of a message without arguments
does not fail; it returns a sub-writer for the content of a variant that the
message now holds. -/
theorem open_variant_accepts_two_complete_types :
    ∃ sub parent,
      writer_on_empty_method_return.open_variant true signature_of_two_types
          = .ok (sub, parent)
        ∧ sub.iter.depth = 1
        ∧ parent.msg.dbus_message.body = [.container .variant "ii" []] := by
  have h : Message.Writer.ascii_string (c_str [105, 105]) = "ii" := by decide
  refine ⟨_, _, rfl, rfl, ?_⟩
  show [Value.container .variant (Message.Writer.ascii_string (c_str [105, 105])) []] = _
  rw [h]

/-- C13: `Bus::send_with_reply_and_timeout` fails with `NoMemory` if and only if
the transport returns `FALSE`; it fails with a `std::runtime_error` when the
transport returns `TRUE` without a pending-call handle; in every other case it
returns a PendingCall that wraps the handle of the transport. -/
theorem send_with_reply_and_timeout_by_reply (bus : Bus) (msg : Message) (timeout : Int) :
    ((bus.send_with_reply_and_timeout msg timeout).1 = .error .NoMemory
        ↔ (dbus_connection_send_with_reply bus.connection msg.dbus_message timeout).1 = false)
    ∧ ((dbus_connection_send_with_reply bus.connection msg.dbus_message timeout).1 = true →
        (dbus_connection_send_with_reply bus.connection msg.dbus_message timeout).2.1 = none →
        (bus.send_with_reply_and_timeout msg timeout).1 = .error (.runtime_error
          "Connection disconnected or tried to send fd\x27s over a transport that does not support it"))
    ∧ (∀ handle,
        (dbus_connection_send_with_reply bus.connection msg.dbus_message timeout).1 = true →
        (dbus_connection_send_with_reply bus.connection msg.dbus_message timeout).2.1
          = some handle →
        (bus.send_with_reply_and_timeout msg timeout).1 = .ok ⟨handle⟩) := by
  unfold Bus.send_with_reply_and_timeout
  cases h1 : (dbus_connection_send_with_reply bus.connection msg.dbus_message timeout).1 <;>
  cases h2 : (dbus_connection_send_with_reply bus.connection msg.dbus_message timeout).2.1 <;>
  simp [h1, h2, PendingCall.create]

/-- C13 on `scripted_bus`: a message without arguments is refused for lack of
memory, a send with timeout 0 comes back without a handle, and any other send
returns a PendingCall on the handle 7. -/
theorem send_with_reply_and_timeout_by_reply_witness :
    (scripted_bus.send_with_reply_and_timeout empty_method_return 100).1 = .error .NoMemory
    ∧ (scripted_bus.send_with_reply_and_timeout message_with_byte 0).1
        = .error (.runtime_error
          "Connection disconnected or tried to send fd\x27s over a transport that does not support it")
    ∧ (scripted_bus.send_with_reply_and_timeout message_with_byte 100).1 = .ok ⟨⟨7, none⟩⟩ :=
  ⟨(send_with_reply_and_timeout_by_reply scripted_bus empty_method_return 100).1.2 rfl,
   (send_with_reply_and_timeout_by_reply scripted_bus message_with_byte 0).2.1 rfl rfl,
   (send_with_reply_and_timeout_by_reply scripted_bus message_with_byte 100).2.2 ⟨7, none⟩
      rfl rfl⟩

/-- C15, refuted as stated: destroying a Bus that has one outstanding pending
call leaves that call outstanding; the destructor makes three calls on the
connection and none of them completes a pending call. -/
theorem destruct_leaves_pending_call_outstanding :
    bus_with_pending_call.connection.pending_calls.map (fun c => c.reply.isSome) = [false]
    ∧ bus_with_pending_call.destruct.connection.pending_calls.map (fun c => c.reply.isSome)
        = [false]
    ∧ bus_with_pending_call.destruct.connection.calls.length = 3 := by
  decide

/-- C15, amended: destroying a Bus removes the installed filter, closes the
transport and unrefs it, in this order, and does nothing else: the pending
calls that are outstanding at that moment are left as they are. -/
theorem destruct_effect (bus : Bus) :
    bus.destruct.connection.calls
        = bus.connection.calls
          ++ [.dbus_connection_remove_filter, .dbus_connection_close, .dbus_connection_unref]
    ∧ bus.destruct.connection.filters = bus.connection.filters - 1
    ∧ bus.destruct.connection.closed = true
    ∧ bus.destruct.connection.refcount = bus.connection.refcount - 1
    ∧ bus.destruct.connection.pending_calls = bus.connection.pending_calls
    ∧ bus.destruct.message_type_router = bus.message_type_router
    ∧ bus.destruct.signal_router = bus.signal_router := by
  refine ⟨?_, rfl, rfl, rfl, rfl, rfl, rfl⟩
  simp [Bus.destruct, dbus_connection_unref, dbus_connection_close,
    dbus_connection_remove_filter]

/-- C16: `Bus::release_name_on_bus` never raises an error, whatever status or
error the daemon reports, and changes nothing of the Bus but the record of the
calls made on the connection; so a second (or later) release of a name
completes without an error and leaves the Bus as the first release left it,
one more release request having been made. -/
theorem release_name_on_bus_idempotent (bus : Bus) (name : Bus.Name) :
    (bus.release_name_on_bus name).1 = .ok ()
    ∧ (bus.release_name_on_bus name).2
        = { bus with connection :=
              { bus.connection with
                  calls := bus.connection.calls ++ [.dbus_bus_release_name name.as_string] } }
    ∧ ((bus.release_name_on_bus name).2.release_name_on_bus name).1 = .ok ()
    ∧ ((bus.release_name_on_bus name).2.release_name_on_bus name).2
        = { (bus.release_name_on_bus name).2 with connection :=
              { (bus.release_name_on_bus name).2.connection with
                  calls := (bus.release_name_on_bus name).2.connection.calls
                    ++ [.dbus_bus_release_name name.as_string] } } :=
  ⟨rfl, rfl, rfl, rfl⟩

/-- Once the initialisation has run, a further call of it changes nothing. -/
theorem init_after_first (process : Process) (h_once : process.once = true)
    (h_static : process.install_dbus_shutdown_handler.isSome = true) :
    init_libdbus_thread_support_and_install_shutdown_handler process = process := by
  unfold init_libdbus_thread_support_and_install_shutdown_handler
  cases h : process.install_dbus_shutdown_handler with
  | none => simp [h] at h_static
  | some b => simp [h_once]

/-- Once the initialisation has run, further Bus constructions neither
initialise the thread support again nor register an exit handler. -/
theorem construct_buses_after_first (envs : List (String → Option String)) :
    ∀ process : Process, process.once = true →
      process.install_dbus_shutdown_handler.isSome = true →
      (construct_buses process envs).dbus_threads_init_default_calls
          = process.dbus_threads_init_default_calls
        ∧ (construct_buses process envs).atexit = process.atexit := by
  induction envs with
  | nil => intro process _ _; exact ⟨rfl, rfl⟩
  | cons env rest ih =>
    intro process h_once h_static
    have h := init_after_first { process with env := env } h_once h_static
    simp only [construct_buses, Bus.Private.construct, h]
    exact ih { process with env := env } h_once h_static

/-- C20: across any number (at least one) of Bus constructions in a process in
which none was made before, `dbus_threads_init_default` runs exactly once, and
`dbus_shutdown` is registered as an exit handler exactly once if
`DBUS_CPP_INSTALL_DBUS_SHUTDOWN_HANDLER` had a non-empty value at the first
construction and is not registered at all if it was unset or empty then,
whatever the environment is at the later constructions. -/
theorem thread_support_initialised_once (process : Process)
    (h_once : process.once = false)
    (h_static : process.install_dbus_shutdown_handler = none)
    (first : String → Option String) (rest : List (String → Option String)) :
    (construct_buses process (first :: rest)).dbus_threads_init_default_calls
        = process.dbus_threads_init_default_calls + 1
    ∧ (((first "DBUS_CPP_INSTALL_DBUS_SHUTDOWN_HANDLER").getD "").isEmpty = false →
        (construct_buses process (first :: rest)).atexit
          = process.atexit ++ [.dbus_shutdown])
    ∧ (((first "DBUS_CPP_INSTALL_DBUS_SHUTDOWN_HANDLER").getD "").isEmpty = true →
        (construct_buses process (first :: rest)).atexit = process.atexit) := by
  cases hb : ((first "DBUS_CPP_INSTALL_DBUS_SHUTDOWN_HANDLER").getD "").isEmpty
  · have hq : (Bus.Private.construct { process with env := first }).2.2
        = ⟨first, some true, true, process.dbus_threads_init_default_calls + 1,
            process.atexit ++ [.dbus_shutdown]⟩ := by
      simp [Bus.Private.construct, init_libdbus_thread_support_and_install_shutdown_handler,
        Process.env_get, h_once, h_static, hb]
    simp only [construct_buses, hq]
    have h := construct_buses_after_first rest
      (Bus.Private.construct { process with env := first }).2.2 (by rw [hq]) (by rw [hq]; rfl)
    rw [hq] at h
    exact ⟨h.1, fun _ => h.2, fun hc => by simp at hc⟩
  · have hq : (Bus.Private.construct { process with env := first }).2.2
        = ⟨first, some false, true, process.dbus_threads_init_default_calls + 1,
            process.atexit⟩ := by
      simp [Bus.Private.construct, init_libdbus_thread_support_and_install_shutdown_handler,
        Process.env_get, h_once, h_static, hb]
    simp only [construct_buses, hq]
    have h := construct_buses_after_first rest
      (Bus.Private.construct { process with env := first }).2.2 (by rw [hq]) (by rw [hq]; rfl)
    rw [hq] at h
    exact ⟨h.1, fun hc => by simp at hc, fun _ => h.2⟩

/-- C20 on `fresh_process`: three constructions with the variable set at the
first one only register `dbus_shutdown` once, and three constructions with the
variable set at the later ones only register nothing; the thread support is
initialised once in both runs. -/
theorem thread_support_initialised_once_witness :
    ((construct_buses fresh_process
        [env_with_shutdown_handler, env_without_variables, env_with_shutdown_handler]
        ).dbus_threads_init_default_calls = 1
      ∧ (construct_buses fresh_process
        [env_with_shutdown_handler, env_without_variables, env_with_shutdown_handler]
        ).atexit = [.dbus_shutdown])
    ∧ ((construct_buses fresh_process
        [env_without_variables, env_with_shutdown_handler, env_with_shutdown_handler]
        ).dbus_threads_init_default_calls = 1
      ∧ (construct_buses fresh_process
        [env_without_variables, env_with_shutdown_handler, env_with_shutdown_handler]
        ).atexit = []) :=
  have h1 := thread_support_initialised_once fresh_process rfl rfl env_with_shutdown_handler
    [env_without_variables, env_with_shutdown_handler]
  have h2 := thread_support_initialised_once fresh_process rfl rfl env_without_variables
    [env_with_shutdown_handler, env_with_shutdown_handler]
  ⟨⟨h1.1, h1.2.1 (by decide)⟩, ⟨h2.1, h2.2.2 (by decide)⟩⟩

/-- The Hello message of the address constructor is `hello_call`. -/
theorem make_hello_call :
    Message.make_method_call true DBus.name DBus.path DBus.interface "Hello"
      = .ok ⟨hello_call⟩ := by
  have h1 : std_string_c_str DBus.name = "org.freedesktop.DBus" := by decide
  have h2 : std_string_c_str DBus.path = "/org/freedesktop/DBus" := by decide
  have h3 : std_string_c_str DBus.interface = "org.freedesktop.DBus" := by decide
  have h4 : std_string_c_str "Hello" = "Hello" := by decide
  simp only [Message.make_method_call, h1, h2, h3, h4]
  rfl

/-- The address constructor when the Hello call gets no reply: it throws with
the text of the transport's error. -/
theorem construct_from_address_no_reply (transport : Transport) (process : Process)
    (address : String) (c : DBusConnection)
    (h : (dbus_connection_open_private transport address).1 = some c)
    (hr : (dbus_connection_send_with_reply_and_block (dbus_connection_add_filter c).2
        hello_call 1000).1 = none) :
    Bus.construct_from_address transport process true address
      = (.error (.runtime_error (dbus_connection_send_with_reply_and_block
            (dbus_connection_add_filter c).2 hello_call 1000).2.1.print),
          some (dbus_connection_send_with_reply_and_block
            (dbus_connection_add_filter c).2 hello_call 1000).2.2,
          (Bus.Private.construct process).2.2) := by
  simp only [Bus.construct_from_address, h, make_hello_call,
    Bus.send_with_reply_and_block_for_at_most, hr]

/-- The address constructor when the Hello call is answered with an error
message: it throws with the text of that error. -/
theorem construct_from_address_error_reply (transport : Transport) (process : Process)
    (address : String) (c : DBusConnection) (reply : DBusMessage)
    (h : (dbus_connection_open_private transport address).1 = some c)
    (hr : (dbus_connection_send_with_reply_and_block (dbus_connection_add_filter c).2
        hello_call 1000).1 = some reply)
    (ht : reply.type = .error) :
    Bus.construct_from_address transport process true address
      = (.error (.runtime_error (dbus_set_error_from_message reply).print),
          some (dbus_connection_send_with_reply_and_block
            (dbus_connection_add_filter c).2 hello_call 1000).2.2,
          (Bus.Private.construct process).2.2) := by
  have hm : (⟨reply⟩ : Message).type = .error := ht
  simp only [Bus.construct_from_address, h, make_hello_call,
    Bus.send_with_reply_and_block_for_at_most, hr, Message.from_raw_message,
    Message.construct, Message.error, hm]
  simp

/-- The address constructor when the Hello call is answered with a reply that is
no error: the Bus is constructed. -/
theorem construct_from_address_reply (transport : Transport) (process : Process)
    (address : String) (c : DBusConnection) (reply : DBusMessage)
    (h : (dbus_connection_open_private transport address).1 = some c)
    (hr : (dbus_connection_send_with_reply_and_block (dbus_connection_add_filter c).2
        hello_call 1000).1 = some reply)
    (ht : reply.type ≠ .error) :
    Bus.construct_from_address transport process true address
      = (.ok ⟨dbus_connection_set_exit_on_disconnect (dbus_connection_send_with_reply_and_block
              (dbus_connection_add_filter c).2 hello_call 1000).2.2 false,
            (Bus.Private.construct process).1.install_route .signal,
            (Bus.Private.construct process).2.1, none⟩,
          some (dbus_connection_set_exit_on_disconnect (dbus_connection_send_with_reply_and_block
            (dbus_connection_add_filter c).2 hello_call 1000).2.2 false),
          (Bus.Private.construct process).2.2) := by
  have hm : ¬ (⟨reply⟩ : Message).type = .error := ht
  simp only [Bus.construct_from_address, h, make_hello_call,
    Bus.send_with_reply_and_block_for_at_most, hr, Message.from_raw_message,
    Message.construct, hm]
  simp

/-- The well-known-bus constructor when the transport hands out a connection:
the Bus is constructed. -/
theorem construct_from_well_known_bus_opened (transport : Transport) (process : Process)
    (bus_type : WellKnownBus) (c : DBusConnection)
    (h : (dbus_bus_get_private transport bus_type).1 = some c) :
    Bus.construct_from_well_known_bus transport process bus_type
      = (.ok ⟨dbus_connection_set_exit_on_disconnect (dbus_connection_add_filter c).2 false,
            (Bus.Private.construct process).1.install_route .signal,
            (Bus.Private.construct process).2.1, none⟩,
          some (dbus_connection_set_exit_on_disconnect (dbus_connection_add_filter c).2 false),
          (Bus.Private.construct process).2.2) := by
  simp only [Bus.construct_from_well_known_bus, h]

/-- C14, refuted as stated: constructing a Bus from the well-known session bus
succeeds with two calls on the connection the transport hands out, the
installation of the filter and `dbus_connection_set_exit_on_disconnect`; the
constructor makes no blocking method call, with a timeout of one second or any
other. -/
theorem construct_from_well_known_bus_sends_no_hello :
    ∃ bus, (Bus.construct_from_well_known_bus scripted_transport fresh_process .session).1
        = .ok bus
      ∧ bus.connection.calls.length = 2
      ∧ bus.connection.calls.any Call.is_send_with_reply_and_block = false :=
  ⟨_, rfl, by decide, by decide⟩

/-- C14, amended.  Constructing a Bus from an address string installs the
filter and then performs the Hello handshake as a blocking method call to the
daemon with a timeout of 1000 ms; the construction fails if the transport
cannot be opened, if the handshake fails or if it is answered with an error.
Constructing a Bus from a well-known bus identifier takes the connection the
transport hands out, installs the filter and makes no handshake call; it fails
if the transport cannot be opened. -/
theorem construct_handshake (transport : Transport) (process : Process) (address : String)
    (bus_type : WellKnownBus) :
    ((dbus_connection_open_private transport address).1 = none →
      (Bus.construct_from_address transport process true address).1
        = .error (.runtime_error (dbus_connection_open_private transport address).2.print))
    ∧ (∀ c, (dbus_connection_open_private transport address).1 = some c →
        (∃ left tail, (Bus.construct_from_address transport process true address).2.1 = some left
          ∧ left.calls = c.calls ++ [.dbus_connection_add_filter,
              .dbus_connection_send_with_reply_and_block hello_call 1000] ++ tail)
        ∧ ((dbus_connection_send_with_reply_and_block (dbus_connection_add_filter c).2
              hello_call 1000).1 = none →
            ∃ e, (Bus.construct_from_address transport process true address).1 = .error e)
        ∧ (∀ reply, (dbus_connection_send_with_reply_and_block (dbus_connection_add_filter c).2
              hello_call 1000).1 = some reply → reply.type = .error →
            ∃ e, (Bus.construct_from_address transport process true address).1 = .error e)
        ∧ (∀ reply, (dbus_connection_send_with_reply_and_block (dbus_connection_add_filter c).2
              hello_call 1000).1 = some reply → reply.type ≠ .error →
            ∃ bus, (Bus.construct_from_address transport process true address).1 = .ok bus
              ∧ bus.connection.calls = c.calls ++ [.dbus_connection_add_filter,
                  .dbus_connection_send_with_reply_and_block hello_call 1000,
                  .dbus_connection_set_exit_on_disconnect false]
              ∧ ((dbus_connection_add_filter c).1 = true →
                  bus.connection.filters = c.filters + 1)))
    ∧ ((dbus_bus_get_private transport bus_type).1 = none →
      (Bus.construct_from_well_known_bus transport process bus_type).1
        = .error (.runtime_error (dbus_bus_get_private transport bus_type).2.print))
    ∧ (∀ c, (dbus_bus_get_private transport bus_type).1 = some c →
        ∃ bus, (Bus.construct_from_well_known_bus transport process bus_type).1 = .ok bus
          ∧ bus.connection.calls = c.calls ++ [.dbus_connection_add_filter,
              .dbus_connection_set_exit_on_disconnect false]
          ∧ ((dbus_connection_add_filter c).1 = true →
              bus.connection.filters = c.filters + 1)) := by
  refine ⟨?_, ?_, ?_, ?_⟩
  · intro h
    simp [Bus.construct_from_address, h]
  · intro c h
    have hcalls : (dbus_connection_send_with_reply_and_block (dbus_connection_add_filter c).2
        hello_call 1000).2.2.calls = c.calls ++ [.dbus_connection_add_filter,
          .dbus_connection_send_with_reply_and_block hello_call 1000] := by
      simp [dbus_connection_send_with_reply_and_block, dbus_connection_add_filter]
    cases hr : (dbus_connection_send_with_reply_and_block (dbus_connection_add_filter c).2
        hello_call 1000).1 with
    | none =>
      have hv := construct_from_address_no_reply transport process address c h hr
      refine ⟨⟨_, [], by rw [hv], by simpa using hcalls⟩, fun _ => ⟨_, by rw [hv]⟩,
        fun r hr2 => by simp at hr2, fun r hr2 => by simp at hr2⟩
    | some reply =>
      by_cases ht : reply.type = .error
      · have hv := construct_from_address_error_reply transport process address c reply h hr ht
        refine ⟨⟨_, [], by rw [hv], by simpa using hcalls⟩, fun hn => by simp at hn,
          fun r _ _ => ⟨_, by rw [hv]⟩, fun r hr2 hne => ?_⟩
        simp only [Option.some.injEq] at hr2
        subst hr2
        exact absurd ht hne
      · have hv := construct_from_address_reply transport process address c reply h hr ht
        refine ⟨⟨_, [.dbus_connection_set_exit_on_disconnect false], by rw [hv], ?_⟩,
          fun hn => by simp at hn, fun r hr2 he => ?_,
          fun r _ _ => ⟨_, by rw [hv], ?_, fun hf => ?_⟩⟩
        · simp [dbus_connection_set_exit_on_disconnect, hcalls]
        · simp only [Option.some.injEq] at hr2
          subst hr2
          exact absurd he ht
        · simp [dbus_connection_set_exit_on_disconnect, hcalls]
        · simp only [dbus_connection_add_filter] at hf
          simp [dbus_connection_set_exit_on_disconnect, dbus_connection_send_with_reply_and_block,
            dbus_connection_add_filter, hf]
  · intro h
    simp [Bus.construct_from_well_known_bus, h]
  · intro c h
    have hv := construct_from_well_known_bus_opened transport process bus_type c h
    refine ⟨_, by rw [hv], ?_, fun hf => ?_⟩
    · simp [dbus_connection_set_exit_on_disconnect, dbus_connection_add_filter]
    · simp only [dbus_connection_add_filter] at hf
      simp [dbus_connection_set_exit_on_disconnect, dbus_connection_add_filter, hf]

/-- C14 amended, on `scripted_transport`: an address the transport cannot open,
an address it opens (filter, then Hello with 1000 ms, then the exit-on-disconnect
setting), and the session bus (filter and exit-on-disconnect setting only). -/
theorem construct_handshake_witness :
    (Bus.construct_from_address scripted_transport fresh_process true "tcp:host=nowhere").1
        = .error (.runtime_error "org.freedesktop.DBus.Error.NoServer: Failed to connect")
    ∧ (∃ bus, (Bus.construct_from_address scripted_transport fresh_process true
          "unix:path=/run/test-bus").1 = .ok bus
        ∧ bus.connection.calls = [] ++ [.dbus_connection_add_filter,
            .dbus_connection_send_with_reply_and_block hello_call 1000,
            .dbus_connection_set_exit_on_disconnect false]
        ∧ (true = true → bus.connection.filters = 0 + 1))
    ∧ (∃ bus, (Bus.construct_from_well_known_bus scripted_transport fresh_process .session).1
          = .ok bus
        ∧ bus.connection.calls = [] ++ [.dbus_connection_add_filter,
            .dbus_connection_set_exit_on_disconnect false]
        ∧ (true = true → bus.connection.filters = 0 + 1)) :=
  ⟨(construct_handshake scripted_transport fresh_process "tcp:host=nowhere" .session).1 rfl,
   ((construct_handshake scripted_transport fresh_process "unix:path=/run/test-bus"
      .session).2.1 scripted_connection rfl).2.2.2 hello_reply rfl (by decide),
   (construct_handshake scripted_transport fresh_process "unix:path=/run/test-bus"
      .session).2.2.2 scripted_connection rfl⟩

/-- C17, refuted as stated: two wake requests on an idle executor, the reactor
running nothing in between, leave two posted drain tasks. -/
theorem two_wake_requests_post_two_drains :
    (asio.Executor.wake_requests 2 idle_executor).io_service.posted = [.drain, .drain]
    ∧ (asio.Executor.wake_requests 2 idle_executor).io_service.posted.length ≠ 1 := by
  decide

/-- C17, amended: every wake request posts one drain task; `k` calls of
`on_dbus_wakeup_event_loop` without an intervening run of the reactor leave `k`
more posted drain tasks. -/
theorem wake_requests_post_one_drain_each (k : Nat) :
    ∀ executor : asio.Executor,
      (asio.Executor.wake_requests k executor).io_service.posted
        = executor.io_service.posted ++ List.replicate k .drain := by
  induction k with
  | zero => intro executor; simp [asio.Executor.wake_requests]
  | succ k ih =>
    intro executor
    rw [asio.Executor.wake_requests, ih]
    simp [asio.Executor.on_dbus_wakeup_event_loop, asio.io_service.post, List.replicate_succ]

/-- The toggle callback of a timeout that is now disabled leaves the adapter,
and so its armed timer, as it is. -/
theorem timeout_toggled_when_disabled (timeout : asio.DBusTimeout)
    (h : timeout.enabled = false) :
    asio.Executor.on_dbus_timeout_toggled timeout = timeout := by
  unfold asio.Executor.on_dbus_timeout_toggled
  cases hd : timeout.data with
  | none => rfl
  | some holder =>
    simp only [asio.Executor.Timeout.start, h]
    cases timeout
    simp_all

/-- C18, the code at the failing input: a timeout announced while enabled has
its timer armed; after the transport disables it and calls the toggle callback
the timer is still armed, and when it expires the handler of the timeout is
invoked. -/
theorem disabled_timeout_still_fires :
    (asio.Executor.on_dbus_add_timeout enabled_timeout).2.data = some ⟨⟨some 100, 1⟩⟩
    ∧ (asio.Executor.on_dbus_timeout_toggled
        { (asio.Executor.on_dbus_add_timeout enabled_timeout).2 with enabled := false }).data
        = some ⟨⟨some 100, 1⟩⟩
    ∧ (asio.timer_expires (asio.Executor.on_dbus_timeout_toggled
        { (asio.Executor.on_dbus_add_timeout enabled_timeout).2 with enabled := false })).handled
        = 1 := by
  decide

/-- A watch announced while disabled gets no adapter, and the toggle callback
does nothing for a watch without adapter. -/
theorem watch_added_disabled_never_armed (watch : asio.DBusWatch)
    (h_enabled : watch.enabled = false) (h_data : watch.data = none) :
    (asio.Executor.on_dbus_add_watch watch).2 = watch
    ∧ (asio.Executor.on_dbus_watch_toggled { watch with enabled := true }).data = none := by
  constructor
  · simp [asio.Executor.on_dbus_add_watch, h_enabled]
  · simp [asio.Executor.on_dbus_watch_toggled, h_data]

/-- C19, the code at the failing input: a watch announced while disabled and
later toggled to enabled has no adapter and no readiness interest
registered. -/
theorem watch_added_disabled_gets_no_interest :
    (asio.Executor.on_dbus_add_watch disabled_watch).2 = disabled_watch
    ∧ (asio.Executor.on_dbus_watch_toggled
        { (asio.Executor.on_dbus_add_watch disabled_watch).2 with enabled := true }).data = none
    ∧ (asio.Executor.on_dbus_watch_toggled
        { (asio.Executor.on_dbus_add_watch disabled_watch).2 with
            enabled := true }).interest_registered = false := by
  decide

/-- C21: peeking does not advance the reader.  `Reader::type()` leaves the
cursor where it was: the reader after the call is the reader before it, a
second `type()` returns the same type, and any read that follows behaves as it
would have without the peek.  `Reader::pop()` advances the cursor by exactly
one argument: of the arguments from the current one on, the first is dropped
(and at the end of the arguments the cursor stays at the end). -/
theorem peek_does_not_advance (r : Message.Reader) :
    r.peek.2 = r
    ∧ r.peek.2.peek.1 = r.peek.1
    ∧ (∀ {α : Type} (pop_X : Message.Reader → α), pop_X r.peek.2 = pop_X r)
    ∧ r.pop.msg = r.msg
    ∧ r.pop.iter.args = r.iter.args.drop 1
    ∧ (∀ v rest, r.iter.args = v :: rest →
        r.type = v.type ∧ r.pop.iter.args = rest
          ∧ r.pop.iter.args.length + 1 = r.iter.args.length)
    ∧ (r.iter.args = [] → r.type = .invalid ∧ r.pop.iter.args = []) := by
  refine ⟨rfl, rfl, fun _ => rfl, rfl, ?_, ?_, ?_⟩
  · simp [Message.Reader.pop, dbus_message_iter_next]
  · intro v rest h
    simp [Message.Reader.pop, Message.Reader.type, dbus_message_iter_next,
      dbus_message_iter_get_arg_type, h]
  · intro h
    simp [Message.Reader.pop, Message.Reader.type, dbus_message_iter_next,
      dbus_message_iter_get_arg_type, h]

/-- C21 at a concrete reader: on an array followed by nothing, two peeks report
`array` and a pop leaves no argument. -/
theorem peek_does_not_advance_witness :
    reader_on_array.type = .array
    ∧ reader_on_array.peek.2.peek.1 = .array
    ∧ reader_on_array.pop.iter.args.length + 1 = reader_on_array.iter.args.length :=
  have h := (peek_does_not_advance reader_on_array).2.2.2.2.2.1
    (.container .array "y" [.fixed .byte 1, .fixed .byte 2]) [] rfl
  ⟨h.1, (peek_does_not_advance reader_on_array).2.1.trans h.1, h.2.2⟩

/-- C24: `Message::reader()` fails with an error for every message whose body
has no arguments, and returns a reader positioned on the first argument for
every message that has at least one argument. -/
theorem reader_needs_an_argument (m : Message) :
    (m.dbus_message.body = [] →
      m.reader = .error (.runtime_error
        "Could not initialize reader, message does not have arguments"))
    ∧ (∀ v rest, m.dbus_message.body = v :: rest →
        m.reader = .ok ⟨m, ⟨v :: rest⟩⟩
          ∧ (∀ r, m.reader = .ok r → r.type = v.type)) := by
  constructor
  · intro h
    simp [Message.reader, Message.Reader.construct, dbus_message_iter_init, h, bind,
      Except.bind, throw, throwThe, MonadExceptOf.throw]
  · intro v rest h
    have hr : m.reader = .ok ⟨m, ⟨v :: rest⟩⟩ := by
      simp [Message.reader, Message.Reader.construct, dbus_message_iter_init, h, bind,
        Except.bind, pure, Except.pure]
    refine ⟨hr, fun r hr2 => ?_⟩
    rw [hr] at hr2
    cases hr2
    rfl

/-- C24 at concrete messages: a method return without arguments has no reader,
and the reader of a message with one byte is positioned on the byte. -/
theorem reader_needs_an_argument_witness :
    empty_method_return.reader = .error (.runtime_error
        "Could not initialize reader, message does not have arguments")
    ∧ message_with_byte.reader = .ok ⟨message_with_byte, ⟨[.fixed .byte 7]⟩⟩ :=
  ⟨(reader_needs_an_argument empty_method_return).1 rfl,
   ((reader_needs_an_argument message_with_byte).2 (.fixed .byte 7) [] rfl).1⟩

/-- C25: for every reply code of the transport other than exists, already-owner
and `-1`, the four defined codes or not, `Bus::request_name_on_bus(name, flags)`
does not fail and returns a Name whose `as_string()` is `name`. -/
theorem request_name_on_bus_other_reply (bus : Bus) (name : String) (flags : Nat)
    (h_exists : (dbus_bus_request_name bus.connection name flags).1
      ≠ DBUS_REQUEST_NAME_REPLY_EXISTS)
    (h_owner : (dbus_bus_request_name bus.connection name flags).1
      ≠ DBUS_REQUEST_NAME_REPLY_ALREADY_OWNER)
    (h_error : (dbus_bus_request_name bus.connection name flags).1 ≠ -1) :
    ∃ result, (bus.request_name_on_bus name flags).1 = .ok result
      ∧ result.as_string = name := by
  refine ⟨⟨name⟩, ?_, rfl⟩
  simp only [Bus.request_name_on_bus]
  split_ifs <;> rfl

/-- C25 on `bus_with_undefined_replies`: the reply codes 0 and 5 give a Name. -/
theorem request_name_on_bus_other_reply_witness :
    (∃ result, (bus_with_undefined_replies.request_name_on_bus "org.test.Zero" 0).1
        = .ok result ∧ result.as_string = "org.test.Zero")
    ∧ (∃ result, (bus_with_undefined_replies.request_name_on_bus "org.test.Five" 0).1
        = .ok result ∧ result.as_string = "org.test.Five") :=
  ⟨request_name_on_bus_other_reply bus_with_undefined_replies "org.test.Zero" 0
      (by decide) (by decide) (by decide),
   request_name_on_bus_other_reply bus_with_undefined_replies "org.test.Five" 0
      (by decide) (by decide) (by decide)⟩

/-- C22: `Watch::on_stream_descriptor_event(event, error)` does exactly one of:
(a) when the error is operation-aborted, nothing (the handler of the watch is
not invoked and the adapter is not re-armed); (b) when it is any other error,
it invokes the handler once with the error event and does not re-arm; (c) when
there is no error, it invokes the handler once with the triggered event, then
re-arms through `restart()` if the handler returned true, and throws
`std::runtime_error` for insufficient memory without re-arming if it returned
false. -/
theorem on_stream_descriptor_event_cases (enough_memory : Bool) (thiz : asio.Executor.Watch)
    (watch : asio.DBusWatch) (event : Nat) (value : Nat) :
    thiz.on_stream_descriptor_event enough_memory watch event .operation_aborted
        = (.ok (), thiz, watch)
    ∧ thiz.on_stream_descriptor_event enough_memory watch event (.other value)
        = (.ok (), thiz, { watch with handled := watch.handled ++ [asio.error_event] })
    ∧ thiz.on_stream_descriptor_event true watch event .success
        = (.ok (), thiz.restart watch, { watch with handled := watch.handled ++ [event] })
    ∧ thiz.on_stream_descriptor_event false watch event .success
        = (.error (.runtime_error "Insufficient memory while handling watch event"), thiz,
            { watch with handled := watch.handled ++ [event] })
    ∧ (thiz.restart watch).stream_descriptor.reads = thiz.stream_descriptor.reads
        + (if watch.flags &&& asio.DBUS_WATCH_READABLE ≠ 0 then 1 else 0)
    ∧ (thiz.restart watch).stream_descriptor.writes = thiz.stream_descriptor.writes
        + (if watch.flags &&& asio.DBUS_WATCH_WRITABLE ≠ 0 then 1 else 0) := by
  refine ⟨rfl, rfl, rfl, rfl, ?_, ?_⟩
  · unfold asio.Executor.Watch.restart
    by_cases h1 : watch.flags &&& asio.DBUS_WATCH_READABLE ≠ 0 <;>
    by_cases h2 : watch.flags &&& asio.DBUS_WATCH_WRITABLE ≠ 0 <;> simp [h1, h2]
  · unfold asio.Executor.Watch.restart
    by_cases h1 : watch.flags &&& asio.DBUS_WATCH_READABLE ≠ 0 <;>
    by_cases h2 : watch.flags &&& asio.DBUS_WATCH_WRITABLE ≠ 0 <;> simp [h1, h2]

/-- The handler of a wait invokes the handler of the timeout exactly when the
wait completed with success and the adapter is still alive. -/
theorem wait_handler_handled (ec : asio.error_code) (timeout : asio.DBusTimeout) :
    (asio.Executor.Timeout.wait_handler ec timeout).handled
        = (if ec = .success ∧ timeout.data.isSome = true then timeout.handled + 1
            else timeout.handled)
    ∧ (asio.Executor.Timeout.wait_handler ec timeout).data = timeout.data := by
  unfold asio.Executor.Timeout.wait_handler asio.Executor.Timeout.on_timeout
  cases hd : timeout.data <;> cases ec <;> simp [hd]

/-- C23: for every timeout armed by `Timeout::start`, the handler of the timeout
is invoked at most once per arming, and it is invoked if and only if the wait
on the timer completes with a success code.  Arming leaves exactly one wait
outstanding; when that wait completes with `ec` the handler is invoked once if
`ec` is success and not at all if it is operation-aborted or another error,
and no wait is left to invoke it again.  A timeout that is not enabled at
`start` is not armed, and the handler of a wait does nothing once the adapter
is released. -/
theorem timeout_handler_invoked_once_on_success (thiz : asio.Executor.Timeout)
    (timeout : asio.DBusTimeout) (ec ec2 : asio.error_code) :
    (timeout.enabled = true →
      (thiz.start timeout).timer.waits = 1
      ∧ (asio.timer_waits_complete ec
            { timeout with data := some (thiz.start timeout) }).handled
          = (if ec = .success then timeout.handled + 1 else timeout.handled)
      ∧ (asio.timer_waits_complete ec2 (asio.timer_waits_complete ec
            { timeout with data := some (thiz.start timeout) })).handled
          = (asio.timer_waits_complete ec
            { timeout with data := some (thiz.start timeout) }).handled)
    ∧ (timeout.enabled = false →
      thiz.start timeout = thiz
      ∧ (asio.Executor.on_dbus_add_timeout timeout).2.data = some ⟨⟨none, 0⟩⟩
      ∧ (asio.timer_waits_complete ec (asio.Executor.on_dbus_add_timeout timeout).2).handled
          = timeout.handled)
    ∧ (timeout.data = none → asio.Executor.Timeout.wait_handler ec timeout = timeout)
    ∧ ((asio.Executor.Timeout.wait_handler ec timeout).handled = timeout.handled + 1
        ↔ ec = .success ∧ timeout.data.isSome = true) := by
  refine ⟨fun h => ?_, fun h => ?_, fun h => ?_, ?_⟩
  · have hs : thiz.start timeout = ⟨⟨some timeout.interval, 1⟩⟩ := by
      simp [asio.Executor.Timeout.start, h, asio.deadline_timer.expires_from_now,
        asio.deadline_timer.async_wait]
    rw [hs]
    refine ⟨rfl, ?_, ?_⟩
    · simp only [asio.timer_waits_complete, asio.Executor.Timeout.wait_handlers]
      rw [(wait_handler_handled ec _).1]
      simp
    · have hd : (asio.timer_waits_complete ec
          { timeout with data := some ⟨⟨some timeout.interval, 1⟩⟩ }).data
          = some ⟨⟨some timeout.interval, 0⟩⟩ := by
        simp only [asio.timer_waits_complete, asio.Executor.Timeout.wait_handlers]
        rw [(wait_handler_handled ec _).2]
      generalize asio.timer_waits_complete ec
          { timeout with data := some ⟨⟨some timeout.interval, 1⟩⟩ } = after at hd ⊢
      simp only [asio.timer_waits_complete, hd, asio.Executor.Timeout.wait_handlers]
  · have hs : thiz.start timeout = thiz := by simp [asio.Executor.Timeout.start, h]
    refine ⟨hs, ?_, ?_⟩
    · simp [asio.Executor.on_dbus_add_timeout, asio.Executor.Timeout.start, h]
    · simp [asio.Executor.on_dbus_add_timeout, asio.Executor.Timeout.start, h,
        asio.timer_waits_complete, asio.Executor.Timeout.wait_handlers]
  · simp [asio.Executor.Timeout.wait_handler, h]
  · rw [(wait_handler_handled ec timeout).1]
    by_cases hc : ec = .success ∧ timeout.data.isSome = true
    · simp [hc]
    · simp only [hc, if_false, iff_false]
      omega

/-- C23 on `enabled_timeout`, armed by `on_dbus_add_timeout`: the handler is
invoked once when the wait completes with success, a second completion invokes
nothing, and a cancelled wait invokes nothing. -/
theorem timeout_handler_invoked_once_on_success_witness :
    (asio.timer_waits_complete .success
        { enabled_timeout with data := some ((⟨⟨none, 0⟩⟩ : asio.Executor.Timeout).start
            enabled_timeout) }).handled = 1
    ∧ (asio.timer_waits_complete .operation_aborted
        { enabled_timeout with data := some ((⟨⟨none, 0⟩⟩ : asio.Executor.Timeout).start
            enabled_timeout) }).handled = 0 :=
  ⟨((timeout_handler_invoked_once_on_success ⟨⟨none, 0⟩⟩ enabled_timeout .success
      .success).1 rfl).2.1,
   ((timeout_handler_invoked_once_on_success ⟨⟨none, 0⟩⟩ enabled_timeout .operation_aborted
      .success).1 rfl).2.1⟩

/-- C26: `Bus::send_with_reply_and_block_for_at_most` never rejects a call
because an executor is installed.  Its outcome is the same whether or not
`Bus::install_executor` was called before, and it is a function of the response
of the transport alone: an error if and only if the transport returns no reply,
and otherwise the reply message. -/
theorem blocking_call_ignores_executor (bus : Bus) (e : Option Executor) (msg : Message)
    (milliseconds : Int) :
    ((bus.install_executor e).send_with_reply_and_block_for_at_most msg milliseconds).1
        = (bus.send_with_reply_and_block_for_at_most msg milliseconds).1
    ∧ ((bus.install_executor e).send_with_reply_and_block_for_at_most msg milliseconds).2
        = (bus.send_with_reply_and_block_for_at_most msg milliseconds).2.install_executor e
    ∧ ((∃ error, (bus.send_with_reply_and_block_for_at_most msg milliseconds).1 = .error error)
        ↔ (dbus_connection_send_with_reply_and_block bus.connection msg.dbus_message
            milliseconds).1 = none)
    ∧ ((dbus_connection_send_with_reply_and_block bus.connection msg.dbus_message
            milliseconds).1 = none →
        (bus.send_with_reply_and_block_for_at_most msg milliseconds).1
          = .error (.runtime_error (dbus_connection_send_with_reply_and_block bus.connection
              msg.dbus_message milliseconds).2.1.print))
    ∧ (∀ reply, (dbus_connection_send_with_reply_and_block bus.connection msg.dbus_message
            milliseconds).1 = some reply →
        (bus.send_with_reply_and_block_for_at_most msg milliseconds).1 = .ok ⟨reply⟩) := by
  refine ⟨?_, ?_, ?_, ?_, ?_⟩
  · simp only [Bus.send_with_reply_and_block_for_at_most, Bus.install_executor]
    cases (dbus_connection_send_with_reply_and_block bus.connection msg.dbus_message
      milliseconds).1 <;> rfl
  · simp only [Bus.send_with_reply_and_block_for_at_most, Bus.install_executor]
    cases (dbus_connection_send_with_reply_and_block bus.connection msg.dbus_message
      milliseconds).1 <;> rfl
  · simp only [Bus.send_with_reply_and_block_for_at_most]
    cases (dbus_connection_send_with_reply_and_block bus.connection msg.dbus_message
      milliseconds).1 <;> simp [Message.from_raw_message, Message.construct]
  · intro h
    simp only [Bus.send_with_reply_and_block_for_at_most, h]
  · intro reply h
    simp only [Bus.send_with_reply_and_block_for_at_most, h]
    rfl

/-- C26 on `scripted_bus` with `first_executor` installed: the Hello call is
answered with `hello_reply`, and a call without reply fails with the text of
the transport's error. -/
theorem blocking_call_ignores_executor_witness :
    ((scripted_bus.install_executor (some first_executor)).send_with_reply_and_block_for_at_most
        ⟨hello_call⟩ 1000).1 = .ok ⟨hello_reply⟩
    ∧ ((scripted_bus.install_executor (some first_executor)).send_with_reply_and_block_for_at_most
        ⟨ping_call⟩ 1000).1
        = .error (.runtime_error "org.freedesktop.DBus.Error.NoReply: Did not receive a reply") :=
  ⟨(blocking_call_ignores_executor scripted_bus (some first_executor) ⟨hello_call⟩ 1000).1.trans
      ((blocking_call_ignores_executor scripted_bus (some first_executor) ⟨hello_call⟩
        1000).2.2.2.2 hello_reply rfl),
   (blocking_call_ignores_executor scripted_bus (some first_executor) ⟨ping_call⟩ 1000).1.trans
      ((blocking_call_ignores_executor scripted_bus (some first_executor) ⟨ping_call⟩
        1000).2.2.2.1 rfl)⟩

/-- C27: `Bus::run()` and `Bus::stop()` fail on their own, without invoking an
executor, if and only if the Bus holds no executor; once `install_executor(e)`
was called with a non-null `e` they delegate to the executor installed last:
its operation is invoked once and its outcome is the outcome of the call, so
the call returns when the executor returns. -/
theorem run_and_stop_need_executor (bus : Bus) (e e2 : Executor) :
    (bus.run = (.error (.runtime_error "Missing executor, cannot run."), bus)
        ↔ bus.executor = none)
    ∧ (bus.stop = (.error (.runtime_error "Missing executor, cannot stop."), bus)
        ↔ bus.executor = none)
    ∧ (bus.install_executor (some e)).run
        = (e.run_outcome,
            bus.install_executor (some { e with run_calls := e.run_calls + 1 }))
    ∧ (bus.install_executor (some e)).stop
        = (e.stop_outcome,
            bus.install_executor (some { e with stop_calls := e.stop_calls + 1 }))
    ∧ ((bus.install_executor (some e)).install_executor (some e2)).run
        = (e2.run_outcome,
            bus.install_executor (some { e2 with run_calls := e2.run_calls + 1 }))
    ∧ ((bus.install_executor (some e)).install_executor (some e2)).stop
        = (e2.stop_outcome,
            bus.install_executor (some { e2 with stop_calls := e2.stop_calls + 1 }))
    ∧ (e.run_outcome = .ok () → (bus.install_executor (some e)).run.1 = .ok ())
    ∧ (e.stop_outcome = .ok () → (bus.install_executor (some e)).stop.1 = .ok ()) := by
  refine ⟨?_, ?_, rfl, rfl, rfl, rfl, fun h => ?_, fun h => ?_⟩
  · constructor
    · intro h
      cases hx : bus.executor with
      | none => rfl
      | some x =>
        exfalso
        have h2 := congrArg (fun p => p.2.executor.map (fun y => y.run_calls)) h
        simp [Bus.run, hx, Executor.run] at h2
    · intro h
      simp [Bus.run, h]
  · constructor
    · intro h
      cases hx : bus.executor with
      | none => rfl
      | some x =>
        exfalso
        have h2 := congrArg (fun p => p.2.executor.map (fun y => y.stop_calls)) h
        simp [Bus.stop, hx, Executor.stop] at h2
    · intro h
      simp [Bus.stop, h]
  · show e.run_outcome = .ok ()
    exact h
  · show e.stop_outcome = .ok ()
    exact h

/-- C27 on `scripted_bus`: without an executor `run()` and `stop()` fail; with
`first_executor` and then `second_executor` installed they return, and it is
the second executor that ran. -/
theorem run_and_stop_need_executor_witness :
    scripted_bus.run.1 = .error (.runtime_error "Missing executor, cannot run.")
    ∧ scripted_bus.stop.1 = .error (.runtime_error "Missing executor, cannot stop.")
    ∧ ((scripted_bus.install_executor (some first_executor)).install_executor
        (some second_executor)).run.1 = .ok ()
    ∧ (((scripted_bus.install_executor (some first_executor)).install_executor
        (some second_executor)).run.2.executor.map (fun x => (x.id, x.run_calls)))
        = some (2, 1) :=
  have h := run_and_stop_need_executor scripted_bus first_executor second_executor
  ⟨congrArg Prod.fst (h.1.2 rfl), congrArg Prod.fst (h.2.1.2 rfl),
   congrArg Prod.fst h.2.2.2.2.1,
   congrArg (fun p => p.2.executor.map (fun x => (x.id, x.run_calls))) h.2.2.2.2.1⟩

/-- C22 on `watch_after_read`, whose read has completed: a cancelled read does
nothing; a failed read invokes the handler with the error event and starts no
read; a successful read invokes the handler with the readable event and starts
one more read when the handler returns true, and throws without starting one
when it returns false. -/
theorem on_stream_descriptor_event_cases_witness :
    adapter_after_read.on_stream_descriptor_event true watch_after_read asio.readable_event
        .operation_aborted = (.ok (), adapter_after_read, watch_after_read)
    ∧ adapter_after_read.on_stream_descriptor_event true watch_after_read asio.readable_event
        (.other 104)
        = (.ok (), ⟨⟨some 5, 0, 0⟩⟩, { watch_after_read with handled := [] ++ [4] })
    ∧ adapter_after_read.on_stream_descriptor_event true watch_after_read asio.readable_event
        .success = (.ok (), ⟨⟨some 5, 1, 0⟩⟩, { watch_after_read with handled := [] ++ [1] })
    ∧ adapter_after_read.on_stream_descriptor_event false watch_after_read
        asio.readable_event .success
        = (.error (.runtime_error "Insufficient memory while handling watch event"),
            ⟨⟨some 5, 0, 0⟩⟩, { watch_after_read with handled := [] ++ [1] }) :=
  have h := on_stream_descriptor_event_cases true adapter_after_read watch_after_read
    asio.readable_event 104
  ⟨h.1, h.2.1, h.2.2.1, h.2.2.2.1⟩

end core.dbus
